import Mathlib

/-!
# Publisher pipeline of `publisher.cpp`

A shallow embedding of `Publisher` (src/publisher.cpp): the publishing loop, the audio
stage, the packet queue hand-off and the lifecycle operations, followed by the properties
established about them.

Conventions of the embedding
* C integers are `Int`; the 32-bit loop counter wraps explicitly (`wrapInt32`).
* A C pointer is a `Ptr`: `null`, `live obj` or `freed stale` (dangling).
* Results supplied by libav* and by the operating system (allocation outcomes, return
  statuses, encoder output) are inputs of the operation, grouped in `...Env` records.
* Every call into a library that matters for ordering or resources is appended to a
  call log (`List Call`).
* A process abort (failed `av_assert0`, `exit(1)`, dereferencing `NULL`) is `none`; the
  destructor, which can also block or run into undefined behaviour, ends in a `Teardown`.
-/

namespace BubbleClient

/-! ## Machine constants -/

/-- The `INT_MAX` of a 32-bit `int`. -/
def INT_MAX : Int := 2147483647

/-- The `INT64_MAX` of `int64_t`. -/
def INT64_MAX : Int := 9223372036854775807

/-- The `INT64_MIN` of `int64_t`. -/
def INT64_MIN : Int := -9223372036854775808

/-- The libavutil marker `AV_NOPTS_VALUE`, the bit pattern `0x8000000000000000`. -/
def AV_NOPTS_VALUE : Int := -9223372036854775808

/-- The `#define FRAME_RATE 25` of publisher.cpp, line 12. -/
def FRAME_RATE : Int := 25

/-- Two's complement wrap of a value into the range of a 32-bit `int`
(`frame_index` is declared `int`, line 62). -/
def wrapInt32 (x : Int) : Int := (x + 2147483648) % 4294967296 - 2147483648

/-! ## Pointers -/

/-- A C pointer: `NULL`, pointing to a live object, or dangling (pointing to an object
that has been freed; `stale` is what the freed memory last held). -/
inductive Ptr (α : Type) where
  | null : Ptr α
  | live (obj : α) : Ptr α
  | freed (stale : α) : Ptr α
  deriving DecidableEq, Repr

/-- The state of a pointer, without the object. -/
inductive PtrState where
  | null
  | live
  | freed
  deriving DecidableEq, Repr

/-- Forget the object a pointer refers to. -/
def Ptr.state {α : Type} : Ptr α → PtrState
  | .null => .null
  | .live _ => .live
  | .freed _ => .freed

/-- The pointer value left behind when the object it refers to is freed by a routine
that does not reset the pointer: a live pointer dangles, others are unchanged. -/
def Ptr.release {α : Type} : Ptr α → Ptr α
  | .null => .null
  | .live o => .freed o
  | .freed o => .freed o

/-- The C test `if (p)`: true for every non-`NULL` pointer, dangling ones included. -/
def Ptr.nonNull {α : Type} : Ptr α → Bool
  | .null => false
  | _ => true

/-- What a dereference reads: the object, or the stale contents of freed memory. -/
def Ptr.read {α : Type} : Ptr α → Option α
  | .null => none
  | .live o => some o
  | .freed o => some o

/-! ## Media data -/

/-- The libavutil `AVRational`. -/
structure AVRational where
  num : Int
  den : Int
  deriving DecidableEq, Repr

/-- The fields of libavcodec `AVPacket` that publisher.cpp reads or writes. -/
structure AVPacket where
  pts : Int
  dts : Int
  duration : Int
  stream_index : Int
  pos : Int
  size : Int
  data : List Nat
  deriving DecidableEq, Repr

/-- The rounding modes of libavutil `enum AVRounding`. -/
inductive AVRounding where
  | ZERO
  | INF
  | DOWN
  | UP
  | NEAR_INF
  deriving DecidableEq, Repr

/-- Modelled from the spec: the rounding mode libavutil uses for a negative operand,
`rnd ^ ((rnd >> 1) & 1)` on the enum values 0, 1, 2, 3, 5 (libavutil is not under src/). -/
def AVRounding.mirror : AVRounding → AVRounding
  | .ZERO => .ZERO
  | .INF => .INF
  | .DOWN => .UP
  | .UP => .DOWN
  | .NEAR_INF => .NEAR_INF

/-- Modelled from the spec: the rounding addend of libavutil `av_rescale_rnd` for a
divisor `c`: `c / 2` for round-to-nearest, `c - 1` for the modes with bit 0 set, else 0. -/
def AVRounding.addend (c : Int) : AVRounding → Int
  | .NEAR_INF => c / 2
  | .INF => c - 1
  | .UP => c - 1
  | .ZERO => 0
  | .DOWN => 0

/-- Modelled from the spec: libavutil `av_rescale_rnd` on a non-negative operand,
`(a * b + r) / c`, with `INT64_MIN` when the quotient is not representable
(spec 4.3: `value * dst_den * src_num / (src_den * dst_num)`; libavutil is not under src/). -/
def rescaleNonneg (a b c : Int) (rnd : AVRounding) : Int :=
  let q := (a * b + rnd.addend c) / c
  if q > INT64_MAX then INT64_MIN else q

/-- Modelled from the spec: libavutil `av_rescale_rnd(a, b, c, rnd)`, which publisher.cpp
calls but does not define. Invalid `b`, `c` give `INT64_MIN`; a negative `a` is rescaled
by magnitude with the mirrored rounding mode and negated (`INT64_MIN` negates to itself). -/
def av_rescale_rnd (a b c : Int) (rnd : AVRounding) : Int :=
  if c ≤ 0 ∨ b < 0 then INT64_MIN
  else if a < 0 then
    let r := rescaleNonneg (-(max a (-INT64_MAX))) b c rnd.mirror
    if r = INT64_MIN then INT64_MIN else -r
  else rescaleNonneg a b c rnd

/-- Modelled from the spec: libavutil `av_rescale_q(a, bq, cq)`, rescaling `a` from time
base `bq` to time base `cq` with round-to-nearest (spec 4.3). -/
def av_rescale_q (a : Int) (bq cq : AVRational) : Int :=
  av_rescale_rnd a (bq.num * cq.den) (cq.num * bq.den) .NEAR_INF

/-- Modelled from the spec: libavcodec `av_packet_rescale_ts(pkt, src_tb, dst_tb)`, which
converts the valid timing fields of a packet from `src_tb` to `dst_tb` (spec 4.3): PTS and
DTS unless they are `AV_NOPTS_VALUE`, the duration when it is positive. -/
def av_packet_rescale_ts (pkt : AVPacket) (src_tb dst_tb : AVRational) : AVPacket :=
  { pkt with
    pts := if pkt.pts ≠ AV_NOPTS_VALUE then av_rescale_q pkt.pts src_tb dst_tb else pkt.pts
    dts := if pkt.dts ≠ AV_NOPTS_VALUE then av_rescale_q pkt.dts src_tb dst_tb else pkt.dts
    duration :=
      if pkt.duration > 0 then av_rescale_q pkt.duration src_tb dst_tb else pkt.duration }

/-- The fields of libavformat `AVStream` that publisher.cpp reads or writes;
`sample_rate` is `codecpar->sample_rate`. -/
structure AVStream where
  index : Int
  time_base : AVRational
  sample_rate : Int
  deriving DecidableEq, Repr

/-- The fields of libavcodec `AVCodecContext` that publisher.cpp reads or writes;
`variable_frame_size` is `codec->capabilities & AV_CODEC_CAP_VARIABLE_FRAME_SIZE`. -/
structure AVCodecContext where
  time_base : AVRational
  sample_rate : Int
  frame_size : Int
  variable_frame_size : Bool
  deriving DecidableEq, Repr

/-- The timing fields of libavutil `AVFrame`. The sample buffer is not represented: it is
filled by floating-point synthesis and read only by the resampler and the encoder. -/
structure AVFrame where
  nb_samples : Int
  pts : Int
  deriving DecidableEq, Repr

/-- The fields of libavformat `AVFormatContext` that publisher.cpp reads or writes:
`oformat_nofile` is `oformat->flags & AVFMT_NOFILE`, `flags_nofile` is
`flags & AVFMT_NOFILE` on the context's own flag word, `pb` the I/O context. -/
structure AVFormatContext where
  oformat_nofile : Bool
  flags_nofile : Bool
  pb : Ptr Unit
  deriving DecidableEq, Repr

/-- Modelled from the spec: `struct OutputStream` is declared in publisher.h, which is not
under src/; these are the members publisher.cpp uses (the oscillator phase `t`, `tincr`,
`tincr2` are floating point and left out). Spec 3, Audio Encode State: cumulative sample
count, next output PTS, resampler handle, raw-frame and encoded-frame buffers. -/
structure OutputStream where
  st : Ptr AVStream
  enc : Ptr AVCodecContext
  next_pts : Int
  samples_count : Int
  frame : Ptr AVFrame
  tmp_frame : Ptr AVFrame
  sws_ctx : Ptr Unit
  swr_ctx : Ptr Unit
  deriving DecidableEq, Repr

/-- Modelled from the spec: the packet queue class behind `mPktsQueue` is not under src/.
Spec 4.1: a bounded FIFO whose capacity is fixed at construction. -/
structure PacketQueue where
  capacity : Int
  items : List AVPacket
  deriving DecidableEq, Repr

/-- Modelled from the spec: `tryPush` of the queue class (not under src/). Spec 4.1:
non-blocking; returns false and leaves the queue as it is when the queue is at capacity,
otherwise appends the packet and returns true. -/
def PacketQueue.tryPush (q : PacketQueue) (pkt : AVPacket) : Bool × PacketQueue :=
  if (q.items.length : Int) < q.capacity then (true, { q with items := q.items ++ [pkt] })
  else (false, q)

/-- Modelled from the spec: `waitAndPop` of the queue class (not under src/). Spec 4.1:
returns the oldest packet; `none` stands for the caller blocking on an empty queue. -/
def PacketQueue.waitAndPop (q : PacketQueue) : Option (AVPacket × PacketQueue) :=
  match q.items with
  | [] => none
  | pkt :: rest => some (pkt, { q with items := rest })

/-- The data members of `class Publisher` that publisher.cpp uses. -/
structure Publisher where
  isInitialized : Bool
  isStarted : Bool
  mOutFmtCtx : Ptr AVFormatContext
  mOutStream : Ptr AVStream
  mAudioOutStream : OutputStream
  mPktsQueue : PacketQueue
  mPublishingThread : Ptr Unit
  deriving DecidableEq, Repr

/-! ## Call log -/

/-- The two elementary streams of the output. -/
inductive Media where
  | video
  | audio
  deriving DecidableEq, Repr

/-- The library routines whose calls are logged with the state of the handle passed. -/
inductive LibFn where
  | avformat_alloc_output_context2
  | avformat_new_stream
  | avcodec_alloc_context3
  | avcodec_open2
  | av_frame_alloc
  | swr_alloc
  | swr_init
  | avio_open
  | avformat_write_header
  | av_write_trailer
  | avcodec_free_context
  | av_frame_free
  | sws_freeContext
  | swr_free
  | avformat_free_context
  | avio_close
  | read_flags
  deriving DecidableEq, Repr

/-- The messages of `LOG_ERR` and `LOG_WARN` in publisher.cpp. -/
inductive LogMsg where
  | video_mux_error
  | audio_mux_error
  | already_started
  | not_started
  | queue_full
  | new_packet_failed
  | copy_packet_failed
  deriving DecidableEq, Repr

/-- One entry of the call log. `lib f st` is a call of `f` (for `read_flags`: a read of
the `flags` member) on a handle in state `st`. -/
inductive Call where
  | lib (f : LibFn) (st : PtrState)
  | rescale_ts (m : Media) (src dst : AVRational)
  | write_frame (m : Media) (pkt : AVPacket)
  | audio_stage
  | packet_unref (pkt : AVPacket)
  | packet_alloc
  | thread_spawn
  | thread_join
  | log (msg : LogMsg)
  deriving DecidableEq, Repr

/-! ## Audio stage -/

/-- Write through a pointer: replaces the object a non-`NULL` pointer refers to. -/
def Ptr.write {α : Type} (p : Ptr α) (v : α) : Ptr α :=
  match p with
  | .null => .null
  | .live _ => .live v
  | .freed _ => .freed v

/-- `Publisher::getAudioFrame` (lines 410-437): stamps the raw frame `tmp_frame` with
`next_pts` and advances `next_pts` by the frame's sample count. The function reads
`frame->data[0]` before anything else, so a `NULL` `tmp_frame` aborts. -/
def getAudioFrame (ost : OutputStream) : Option (Ptr AVFrame × OutputStream) :=
  match ost.tmp_frame.read with
  | none => none
  | some frame =>
    let frame := { frame with pts := ost.next_pts }
    let ost := { ost with tmp_frame := ost.tmp_frame.write frame,
                          next_pts := ost.next_pts + frame.nb_samples }
    some (ost.tmp_frame, ost)

/-- What the resampler and the encoder answer during one call of `writeAudioFrame`:
the result of `swr_get_delay`, the statuses of `av_frame_make_writable`, `swr_convert`,
`avcodec_send_frame` and `avcodec_receive_packet`, and the packet the encoder fills. -/
structure AudioEnv where
  swr_delay : Int
  make_writable : Int
  convert : Int
  send_frame : Int
  receive_packet : Int
  encoded : AVPacket
  deriving DecidableEq, Repr

/-- The packet left by `memset(&pkt, 0, sizeof(AVPacket)); av_init_packet(&pkt);`. -/
def initPacket : AVPacket :=
  { pts := AV_NOPTS_VALUE, dts := AV_NOPTS_VALUE, duration := 0, stream_index := 0,
    pos := -1, size := 0, data := [] }

/-- `Publisher::writeAudioFrame` (lines 442-517). Returns the packet, `*got_packet` and
the updated stream state; `none` is a process abort (`av_assert0`, or a `NULL` handle). -/
def writeAudioFrame (ost : OutputStream) (env : AudioEnv) :
    Option (AVPacket × Bool × OutputStream) :=
  match getAudioFrame ost with
  | none => none
  | some (framePtr, ost) =>
    match framePtr.read with
    | none => some (initPacket, false, ost)
    | some frame =>
      match ost.enc.read, ost.swr_ctx.read, ost.frame.read with
      | some c, some _, some outFrame =>
        let dst_nb_samples := wrapInt32
          (av_rescale_rnd (env.swr_delay + frame.nb_samples) c.sample_rate c.sample_rate .UP)
        if dst_nb_samples ≠ frame.nb_samples then none
        else if env.make_writable < 0 then some (initPacket, false, ost)
        else if env.convert < 0 then some (initPacket, false, ost)
        else
          let outFrame := { outFrame with
            pts := av_rescale_q ost.samples_count ⟨1, c.sample_rate⟩ c.time_base }
          let ost := { ost with frame := ost.frame.write outFrame,
                                samples_count := ost.samples_count + dst_nb_samples }
          if env.send_frame < 0 then some (initPacket, false, ost)
          else if env.receive_packet < 0 then some (env.encoded, false, ost)
          else some (env.encoded, true, ost)
      | _, _, _ => none

/-! ## Publishing loop -/

/-- What one iteration of the publishing loop meets: the value of `isStarted` read by the
loop test, the packet `waitAndPop` delivers, the statuses of the two
`av_interleaved_write_frame` calls, and the answers to the audio stage. -/
structure Tick where
  running : Bool
  packet : AVPacket
  video_status : Int
  audio_status : Int
  audio : AudioEnv
  deriving DecidableEq, Repr

/-- Lines 73-78 of `Publisher::publish`: a packet without PTS is stamped with the frame
index (PTS and DTS) and given duration 0; any other packet is left as it is. -/
def assignVideoTs (packet : AVPacket) (frame_index : Int) : AVPacket :=
  if packet.pts = AV_NOPTS_VALUE then
    { packet with pts := frame_index, dts := frame_index, duration := 0 }
  else packet

/-- Lines 79-81 of `Publisher::publish`: rescale from `(1, FRAME_RATE)` into the output
video stream's time base, then tag the packet with that stream's index and `pos = -1`. -/
def prepareVideo (packet : AVPacket) (vst : AVStream) : AVPacket :=
  let packet := av_packet_rescale_ts packet ⟨1, FRAME_RATE⟩ vst.time_base
  { packet with stream_index := vst.index, pos := -1 }

/-- Lines 97-98 of `Publisher::publish`: rescale the encoded audio packet from the
encoder's time base into the audio stream's time base and tag it with that stream. -/
def prepareAudio (audio_pkt : AVPacket) (c : AVCodecContext) (ast : AVStream) : AVPacket :=
  let audio_pkt := av_packet_rescale_ts audio_pkt c.time_base ast.time_base
  { audio_pkt with stream_index := ast.index }

/-- The body of the `while (isStarted)` loop of `Publisher::publish` (lines 69-108) for
one popped packet, at loop counter `frame_index`. Returns the publisher (its audio state
updated), the next counter and the calls made; `none` is a process abort. -/
def publishIteration (p : Publisher) (frame_index : Int) (t : Tick) :
    Option (Publisher × Int × List Call) :=
  match p.mOutStream.read, p.mOutFmtCtx.read with
  | some vst, some _ =>
    let packet := assignVideoTs t.packet frame_index
    let packet := prepareVideo packet vst
    let next_index := wrapInt32 (frame_index + 1)
    let videoCalls :=
      [Call.rescale_ts .video ⟨1, FRAME_RATE⟩ vst.time_base, Call.write_frame .video packet]
        ++ (if t.video_status < 0 then [Call.log .video_mux_error] else [])
    match writeAudioFrame p.mAudioOutStream t.audio with
    | none => none
    | some (audio_pkt, got_packet, ost) =>
      let p := { p with mAudioOutStream := ost }
      if got_packet then
        match ost.enc.read, ost.st.read with
        | some c, some ast =>
          let audio_pkt := prepareAudio audio_pkt c ast
          let audioCalls :=
            [Call.audio_stage, Call.rescale_ts .audio c.time_base ast.time_base,
              Call.write_frame .audio audio_pkt]
              ++ (if t.audio_status < 0 then [Call.log .audio_mux_error] else [])
          some (p, next_index, videoCalls ++ audioCalls ++ [Call.packet_unref packet])
        | _, _ => none
      else
        some (p, next_index, videoCalls ++ [Call.audio_stage] ++ [Call.packet_unref packet])
  | _, _ => none

/-- The `while (isStarted)` loop of `Publisher::publish` from loop counter `frame_index`,
run against the ticks it meets: it ends when the loop test reads `isStarted` false (or
when no further tick is supplied), and every other tick runs the body once. -/
def publishFrom (p : Publisher) (frame_index : Int) :
    List Tick → Option (Publisher × Int × List Call)
  | [] => some (p, frame_index, [])
  | t :: ts =>
    if t.running then
      match publishIteration p frame_index t with
      | none => none
      | some (p1, next_index, calls) =>
        match publishFrom p1 next_index ts with
        | none => none
        | some (p2, last_index, rest) => some (p2, last_index, calls ++ rest)
    else some (p, frame_index, [])

/-- `Publisher::publish` (lines 57-110): the loop started with `frame_index = 0`. -/
def publish (p : Publisher) (ticks : List Tick) : Option (Publisher × Int × List Call) :=
  publishFrom p 0 ticks

/-- The packets handed to `av_interleaved_write_frame`, in call order. -/
def sinkWrites : List Call → List (Media × AVPacket)
  | [] => []
  | Call.write_frame m pkt :: rest => (m, pkt) :: sinkWrites rest
  | _ :: rest => sinkWrites rest

/-! ## Lifecycle -/

/-- `Publisher::Publisher(int queue_size)` (lines 14-20). `audio` is the value the
default construction of the member `mAudioOutStream` leaves (it is not in the
initialiser list, and `OutputStream` is declared outside src/). -/
def Publisher.new (queue_size : Int) (audio : OutputStream) : Publisher :=
  { isInitialized := false, isStarted := false, mOutFmtCtx := .null, mOutStream := .null,
    mAudioOutStream := audio, mPktsQueue := { capacity := queue_size, items := [] },
    mPublishingThread := .null }

/-- `Publisher::start` (lines 42-55): status, new state, calls made. -/
def start (p : Publisher) : Int × Publisher × List Call :=
  if p.isStarted then (0, p, [Call.log .already_started])
  else (0, { p with isStarted := true, mPublishingThread := .live () }, [Call.thread_spawn])

/-- `Publisher::stop` (lines 112-130): status, new state, calls made. -/
def stop (p : Publisher) : Int × Publisher × List Call :=
  if !p.isStarted then (0, p, [Call.log .not_started])
  else
    let p := { p with isStarted := false }
    if p.mPublishingThread.nonNull then
      (0, { p with mPublishingThread := .null }, [Call.thread_join])
    else (0, p, [])

/-- `Publisher::closeStream` (lines 519-526). `avcodec_free_context`, `av_frame_free` and
`swr_free` take the address of the handle and reset it to `NULL`; `sws_freeContext` takes
the handle by value and leaves it as it was. -/
def closeStream (ost : OutputStream) : OutputStream × List Call :=
  ({ ost with enc := .null, frame := .null, tmp_frame := .null,
              sws_ctx := ost.sws_ctx.release, swr_ctx := .null },
   [Call.lib .avcodec_free_context ost.enc.state, Call.lib .av_frame_free ost.frame.state,
    Call.lib .av_frame_free ost.tmp_frame.state, Call.lib .sws_freeContext ost.sws_ctx.state,
    Call.lib .swr_free ost.swr_ctx.state])

/-- How a run of the destructor ends: it returns (`completed`), the process aborts on a
`NULL` dereference (`aborted`), the thread join never returns (`blocked`), or the code
reads through a pointer to freed memory, after which C++ leaves its behaviour undefined
(`undefined`). Each carries the calls made up to that point. -/
inductive Teardown where
  | completed (p : Publisher) (calls : List Call)
  | aborted (calls : List Call)
  | blocked (calls : List Call)
  | undefined (calls : List Call)
  deriving DecidableEq, Repr

/-- `Publisher::~Publisher` (lines 22-40). `join_returns` tells whether the `join()` of a
forced `stop()` returns (it does not while the consumer stays blocked in `waitAndPop`).
`av_write_trailer` (line 28) is called unguarded and dereferences its argument: a `NULL`
output context aborts, a dangling one is a read of freed memory. After
`avformat_free_context` (line 34) the member `mOutFmtCtx` dangles, and line 35 reads
`flags` through it: from there on the behaviour is undefined, so the run ends there and
nothing is asserted about the `avio_close` of lines 35-38. -/
def destroy (p : Publisher) (join_returns : Bool) : Teardown :=
  if p.isStarted && p.mPublishingThread.nonNull && !join_returns then .blocked []
  else
    let stopped := if p.isStarted then stop p else (0, p, [])
    let p := stopped.2.1
    let trailer := [Call.lib .av_write_trailer p.mOutFmtCtx.state]
    match p.mOutFmtCtx with
    | .null => .aborted (stopped.2.2 ++ trailer)
    | .freed _ => .undefined (stopped.2.2 ++ trailer)
    | .live _ =>
      let closed := closeStream p.mAudioOutStream
      let p := { p with mAudioOutStream := closed.1 }
      let calls := stopped.2.2 ++ trailer ++ closed.2
      if p.mOutFmtCtx.nonNull then
        .undefined (calls ++
          [Call.lib .avformat_free_context .live, Call.lib .read_flags .freed])
      else .completed p calls

/-! ## Packet hand-off -/

/-- What the allocator answers during one `pushPacket`: the statuses of `av_new_packet`
and `av_copy_packet`. -/
structure PushEnv where
  new_packet : Int
  copy_packet : Int
  deriving DecidableEq, Repr

/-- `Publisher::pushPacket` (lines 204-229): status, new state, calls made. The caller's
packet is a `const` argument; `new_pkt` is the copy `av_copy_packet` fills from it. -/
def pushPacket (p : Publisher) (pkt : AVPacket) (env : PushEnv) :
    Int × Publisher × List Call :=
  if env.new_packet ≠ 0 then (-1, p, [Call.log .new_packet_failed])
  else if env.copy_packet ≠ 0 then (-1, p, [Call.packet_alloc, Call.log .copy_packet_failed])
  else
    let new_pkt := pkt
    let pushed := p.mPktsQueue.tryPush new_pkt
    let p := { p with mPktsQueue := pushed.2 }
    if pushed.1 then (0, p, [Call.packet_alloc])
    else (-1, p, [Call.packet_alloc, Call.log .queue_full, Call.packet_unref new_pkt])

/-! ## Initialisation -/

/-- The fields of libavcodec `AVCodec` that `initAudioOutputStream` and `openAudio` read:
`supported_samplerates` is `NULL` or a zero-terminated array (held without the
terminator), `variable_frame_size` the `AV_CODEC_CAP_VARIABLE_FRAME_SIZE` capability. -/
structure AVCodec where
  supported_samplerates : Option (List Int)
  variable_frame_size : Bool
  deriving DecidableEq, Repr

/-- What the allocator answers during one `allocAudioFrame`: whether `av_frame_alloc`
returned a frame, and the status of `av_frame_get_buffer`. -/
structure FrameEnv where
  frame_alloc : Bool
  get_buffer : Int
  deriving DecidableEq, Repr

/-- What the libraries answer during one `init`: the context of
`avformat_alloc_output_context2` (`none`: it failed), the streams of the two
`avformat_new_stream` calls, the AAC encoder found, whether `avcodec_alloc_context3` and
`swr_alloc` returned a handle, the statuses of `avcodec_open2`,
`avcodec_parameters_from_context`, `swr_init`, `avio_open` and `avformat_write_header`,
the encoder's `frame_size`, and the time bases the muxer leaves on the two streams. -/
structure InitEnv where
  out_ctx : Option AVFormatContext
  video_stream : Option AVStream
  audio_stream : Option AVStream
  audio_codec : Option AVCodec
  enc_alloc : Bool
  open2 : Int
  frame_size : Int
  frame_env : FrameEnv
  tmp_frame_env : FrameEnv
  parameters : Int
  swr_alloc : Bool
  swr_init : Int
  avio_open : Int
  write_header : Int
  video_time_base : AVRational
  audio_time_base : AVRational
  deriving DecidableEq, Repr

/-- `Publisher::allocAudioFrame` (lines 290-322): `none` is `exit(1)`, `some .null` the
`NULL` returned when the buffer cannot be allocated. -/
def allocAudioFrame (nb_samples : Int) (env : FrameEnv) : Option (Ptr AVFrame) :=
  if !env.frame_alloc then none
  else if nb_samples ≠ 0 then
    if env.get_buffer < 0 then some .null
    else some (.live { nb_samples := nb_samples, pts := AV_NOPTS_VALUE })
  else some (.live { nb_samples := nb_samples, pts := AV_NOPTS_VALUE })

/-- `Publisher::openAudio` (lines 324-406): status, stream state, calls made. -/
def openAudio (codec : AVCodec) (ost : OutputStream) (env : InitEnv) :
    Option (Int × OutputStream × List Call) :=
  if !env.enc_alloc then some (-1, ost, [Call.lib .avcodec_alloc_context3 .null])
  else
    match ost.st.read with
    | none => none
    | some st =>
      let c : AVCodecContext :=
        { time_base := st.time_base, sample_rate := st.sample_rate,
          frame_size := env.frame_size, variable_frame_size := codec.variable_frame_size }
      let ost := { ost with enc := .live c }
      let calls := [Call.lib .avcodec_alloc_context3 .live, Call.lib .avcodec_open2 .live]
      if env.open2 < 0 then some (-1, ost, calls)
      else
        let nb_samples := if c.variable_frame_size then 10000 else c.frame_size
        match allocAudioFrame nb_samples env.frame_env,
              allocAudioFrame nb_samples env.tmp_frame_env with
        | some frame, some tmp_frame =>
          let ost := { ost with frame := frame, tmp_frame := tmp_frame }
          let calls := calls ++
            [Call.lib .av_frame_alloc frame.state, Call.lib .av_frame_alloc tmp_frame.state]
          if env.parameters < 0 then some (-1, ost, calls)
          else if !env.swr_alloc then
            some (-1, { ost with swr_ctx := .null }, calls ++ [Call.lib .swr_alloc .null])
          else
            let ost := { ost with swr_ctx := .live () }
            let calls := calls ++ [Call.lib .swr_alloc .live, Call.lib .swr_init .live]
            if env.swr_init < 0 then some (-1, ost, calls) else some (0, ost, calls)
        | _, _ => none

/-- `Publisher::initAudioOutputStream` (lines 231-288): status, new state, calls made.
Channel layout and bit rate (lines 249, 262-275) feed no timing or resource decision and
are not represented. -/
def initAudioOutputStream (p : Publisher) (env : InitEnv) :
    Option (Int × Publisher × List Call) :=
  match env.audio_stream with
  | none =>
    some (-1, { p with mAudioOutStream := { p.mAudioOutStream with st := .null } },
          [Call.lib .avformat_new_stream .null])
  | some st =>
    match env.audio_codec with
    | none => none
    | some audio_codec =>
      let sample_rate : Int :=
        match audio_codec.supported_samplerates with
        | none => 44100
        | some rates => rates.foldl (fun sr r => if r = 44100 then 44100 else sr) (rates.headD 0)
      let st := { st with sample_rate := sample_rate, time_base := ⟨1, sample_rate⟩ }
      let ost := { p.mAudioOutStream with st := .live st }
      match openAudio audio_codec ost env with
      | none => none
      | some (status, ost, calls) =>
        let calls := Call.lib .avformat_new_stream .live :: calls
        if status ≠ 0 then
          let closed := closeStream ost
          some (-1, { p with mAudioOutStream := closed.1 }, calls ++ closed.2)
        else some (0, { p with mAudioOutStream := ost }, calls)

/-- The `on_error:` block of `Publisher::init` (lines 191-201). -/
def initOnError (p : Publisher) (calls : List Call) : Option (Int × Publisher × List Call) :=
  if p.mOutFmtCtx.nonNull then
    match p.mOutFmtCtx.read with
    | none => none
    | some ctx =>
      let closeCalls :=
        if !ctx.flags_nofile then
          [Call.lib .read_flags p.mOutFmtCtx.state, Call.lib .avio_close ctx.pb.state]
        else [Call.lib .read_flags p.mOutFmtCtx.state]
      let freeCall := Call.lib .avformat_free_context p.mOutFmtCtx.state
      some (-1, { p with mOutFmtCtx := .null, mOutStream := p.mOutStream.release,
                         mAudioOutStream :=
                           { p.mAudioOutStream with st := p.mAudioOutStream.st.release } },
            calls ++ closeCalls ++ [freeCall])
  else some (-1, p, calls)

/-- `Publisher::init` (lines 132-202): status, new state, calls made. Codec parameters
(lines 152, 159, 162) and `av_dump_format` feed no timing or resource decision and are not
represented. `avformat_write_header` lets the muxer set the time bases of the streams it
owns; on success they are the `video_time_base` and `audio_time_base` of `env`. -/
def init (p : Publisher) (env : InitEnv) : Option (Int × Publisher × List Call) :=
  if p.isInitialized then some (0, p, [])
  else
    match env.out_ctx with
    | none =>
      some (-1, { p with mOutFmtCtx := .null },
            [Call.lib .avformat_alloc_output_context2 .null])
    | some ctx =>
      let p := { p with mOutFmtCtx := .live ctx }
      let calls := [Call.lib .avformat_alloc_output_context2 .live]
      match env.video_stream with
      | none =>
        initOnError { p with mOutStream := .null }
          (calls ++ [Call.lib .avformat_new_stream .null])
      | some vst =>
        let p := { p with mOutStream := .live { vst with time_base := ⟨1, FRAME_RATE⟩ } }
        let calls := calls ++ [Call.lib .avformat_new_stream .live]
        match initAudioOutputStream p env with
        | none => none
        | some (status, p, audioCalls) =>
          let calls := calls ++ audioCalls
          if status ≠ 0 then initOnError p calls
          else
            if ¬ctx.oformat_nofile ∧ env.avio_open < 0 then
              initOnError p (calls ++ [Call.lib .avio_open .null])
            else
              let opened : Publisher × List Call :=
                if !ctx.oformat_nofile then
                  ({ p with mOutFmtCtx := .live { ctx with pb := .live () } },
                   calls ++ [Call.lib .avio_open .live])
                else (p, calls)
              let p := opened.1
              let calls := opened.2 ++ [Call.lib .avformat_write_header .live]
              if env.write_header < 0 then initOnError p calls
              else
                some (0, { p with
                  isInitialized := true
                  mOutStream := p.mOutStream.write
                    { vst with time_base := env.video_time_base }
                  mAudioOutStream := { p.mAudioOutStream with
                    st := match p.mAudioOutStream.st.read with
                      | some ast => p.mAudioOutStream.st.write
                          { ast with time_base := env.audio_time_base }
                      | none => p.mAudioOutStream.st } }, calls)

/-! ## Readiness of a running pipeline -/

/-- The condition under which `writeAudioFrame` sets `*got_packet = 1` (lines 475-515):
none of the four library calls reports a negative status. -/
def AudioEnv.produced (env : AudioEnv) : Bool :=
  decide (0 ≤ env.make_writable) && decide (0 ≤ env.convert) &&
    decide (0 ≤ env.send_frame) && decide (0 ≤ env.receive_packet)

/-- The condition under which `writeAudioFrame` reaches lines 494-495, where the encoder
frame is stamped and the sample count advanced. -/
def AudioEnv.converted (env : AudioEnv) : Bool :=
  decide (0 ≤ env.make_writable) && decide (0 ≤ env.convert)

/-- The audio stream state left by a successful `init`: stream `ast`, encoder context `c`,
resampler and both frames live, a positive sample rate, and a raw frame of `nb` samples
with `nb` in the range of a non-negative `int`. -/
structure AudioReady (ost : OutputStream) (ast : AVStream) (c : AVCodecContext) (nb : Int) :
    Prop where
  st : ost.st = .live ast
  enc : ost.enc = .live c
  swr : ost.swr_ctx = .live ()
  frame : ∃ f, ost.frame = .live f
  tmp_frame : ∃ pts, ost.tmp_frame = .live { nb_samples := nb, pts := pts }
  rate_pos : 0 < c.sample_rate
  nb_nonneg : 0 ≤ nb
  nb_le : nb ≤ INT_MAX

/-- The publisher state left by a successful `init`: output context and video stream
`vst` live, and the audio stream ready. -/
structure PipelineReady (p : Publisher) (vst ast : AVStream) (c : AVCodecContext) (nb : Int) :
    Prop where
  ctx : ∃ ctx, p.mOutFmtCtx = .live ctx
  video : p.mOutStream = .live vst
  audio : AudioReady p.mAudioOutStream ast c nb

/-! ## Observations on a call log -/

/-- The video packets handed to the sink, in call order. -/
def videoWrites (calls : List Call) : List AVPacket :=
  (sinkWrites calls).filterMap (fun w => if w.1 = Media.video then some w.2 else none)

/-- The `av_packet_rescale_ts` calls of a log, in call order. -/
def rescaleCalls : List Call → List (Media × AVRational × AVRational)
  | [] => []
  | Call.rescale_ts m src dst :: rest => (m, src, dst) :: rescaleCalls rest
  | _ :: rest => rescaleCalls rest

/-- The calls one loop iteration makes on a ready pipeline at loop counter `k`. -/
def tickCalls (vst ast : AVStream) (c : AVCodecContext) (k : Int) (t : Tick) : List Call :=
  let packet := prepareVideo (assignVideoTs t.packet k) vst
  let videoCalls :=
    [Call.rescale_ts .video ⟨1, FRAME_RATE⟩ vst.time_base, Call.write_frame .video packet]
      ++ (if t.video_status < 0 then [Call.log .video_mux_error] else [])
  if t.audio.produced then
    videoCalls ++
      ([Call.audio_stage, Call.rescale_ts .audio c.time_base ast.time_base,
        Call.write_frame .audio (prepareAudio t.audio.encoded c ast)]
        ++ (if t.audio_status < 0 then [Call.log .audio_mux_error] else []))
      ++ [Call.packet_unref packet]
  else videoCalls ++ [Call.audio_stage] ++ [Call.packet_unref packet]

/-- The calls a run of the loop makes on a ready pipeline from loop counter `k`. -/
def loopCalls (vst ast : AVStream) (c : AVCodecContext) : Int → List Tick → List Call
  | _, [] => []
  | k, t :: ts => tickCalls vst ast c k t ++ loopCalls vst ast c (wrapInt32 (k + 1)) ts

/-- The loop counter after a run of `n` iterations from counter `k`. -/
def counterAfter : Int → Nat → Int
  | k, 0 => k
  | k, n + 1 => counterAfter (wrapInt32 (k + 1)) n

/-- A sequence of audio-stage calls on one stream state, one per loop iteration: the
reported `got_packet` and the stream state after each call; `none` is a process abort. -/
def audioStages (ost : OutputStream) : List AudioEnv → Option (List (Bool × OutputStream))
  | [] => some []
  | env :: envs =>
    match writeAudioFrame ost env with
    | none => none
    | some (_, got_packet, ost1) =>
      match audioStages ost1 envs with
      | none => none
      | some rest => some ((got_packet, ost1) :: rest)

/-- The PTS values given to the encoder frame (line 494) by the calls of a sequence that
reach that line, in call order. -/
def frameStamps (envs : List AudioEnv) (results : List (Bool × OutputStream)) : List Int :=
  (envs.zip results).filterMap
    (fun er => if er.1.converted then (er.2.2.frame.read).map (fun f => f.pts) else none)

/-! ## Concrete inputs

Inputs at which the properties below are instantiated: the library answers of a
successful `init` towards a sink with a 1/90000 video time base, the publisher this
leaves, and a few ticks. -/

/-- An audio stream state before `init`: every handle `NULL`, counters zero. -/
def blankAudio : OutputStream :=
  { st := .null, enc := .null, next_pts := 0, samples_count := 0, frame := .null,
    tmp_frame := .null, sws_ctx := .null, swr_ctx := .null }

/-- Library answers under which `init` succeeds. -/
def goodInitEnv : InitEnv :=
  { out_ctx := some { oformat_nofile := false, flags_nofile := false, pb := .null },
    video_stream := some { index := 0, time_base := ⟨0, 1⟩, sample_rate := 0 },
    audio_stream := some { index := 1, time_base := ⟨0, 1⟩, sample_rate := 0 },
    audio_codec := some { supported_samplerates := some [96000, 48000, 44100],
                          variable_frame_size := false },
    enc_alloc := true, open2 := 0, frame_size := 1024,
    frame_env := { frame_alloc := true, get_buffer := 0 },
    tmp_frame_env := { frame_alloc := true, get_buffer := 0 },
    parameters := 0, swr_alloc := true, swr_init := 0, avio_open := 0, write_header := 0,
    video_time_base := ⟨1, 90000⟩, audio_time_base := ⟨1, 44100⟩ }

/-- The video stream of `readyPublisher`. -/
def readyVideoStream : AVStream := { index := 0, time_base := ⟨1, 90000⟩, sample_rate := 0 }

/-- The audio stream of `readyPublisher`. -/
def readyAudioStream : AVStream :=
  { index := 1, time_base := ⟨1, 44100⟩, sample_rate := 44100 }

/-- The encoder context of `readyPublisher`. -/
def readyEncoder : AVCodecContext :=
  { time_base := ⟨1, 44100⟩, sample_rate := 44100, frame_size := 1024,
    variable_frame_size := false }

/-- The publisher `init` leaves on a new publisher of capacity 4 under `goodInitEnv`. -/
def readyPublisher : Publisher :=
  { isInitialized := true, isStarted := false,
    mOutFmtCtx := .live { oformat_nofile := false, flags_nofile := false, pb := .live () },
    mOutStream := .live readyVideoStream,
    mAudioOutStream :=
      { st := .live readyAudioStream, enc := .live readyEncoder, next_pts := 0,
        samples_count := 0, frame := .live { nb_samples := 1024, pts := AV_NOPTS_VALUE },
        tmp_frame := .live { nb_samples := 1024, pts := AV_NOPTS_VALUE }, sws_ctx := .null,
        swr_ctx := .live () },
    mPktsQueue := { capacity := 4, items := [] },
    mPublishingThread := .null }

/-- Encoder and resampler answers of a tick in which an audio packet is produced. -/
def goodAudioEnv : AudioEnv :=
  { swr_delay := 0, make_writable := 0, convert := 0, send_frame := 0, receive_packet := 0,
    encoded := { pts := 1024, dts := 1024, duration := 1024, stream_index := 0, pos := -1,
                 size := 3, data := [1, 2, 3] } }

/-- Encoder and resampler answers of a tick in which the encoder is still buffering. -/
def bufferingAudioEnv : AudioEnv := { goodAudioEnv with receive_packet := -11 }

/-- A video packet that arrives without timestamps. -/
def untimedPacket : AVPacket :=
  { pts := AV_NOPTS_VALUE, dts := AV_NOPTS_VALUE, duration := 40, stream_index := 7,
    pos := 100, size := 2, data := [9, 9] }

/-- A video packet that arrives with timestamps of its own. -/
def timedPacket : AVPacket :=
  { pts := 10, dts := 8, duration := 1, stream_index := 7, pos := 100, size := 2,
    data := [5, 5] }

/-- Three ticks: an untimed packet, a timed packet whose video write fails and whose
audio is still buffering, and another untimed packet whose audio write fails. -/
def sampleTicks : List Tick :=
  [ { running := true, packet := untimedPacket, video_status := 0, audio_status := 0,
      audio := goodAudioEnv },
    { running := true, packet := timedPacket, video_status := -5, audio_status := 0,
      audio := bufferingAudioEnv },
    { running := true, packet := untimedPacket, video_status := 0, audio_status := -5,
      audio := goodAudioEnv } ]

/-- The `readyPublisher` behind a sink whose video stream ticks once per second. -/
def coarsePublisher : Publisher :=
  { readyPublisher with
    mOutStream := .live { index := 0, time_base := ⟨1, 1⟩, sample_rate := 0 } }

/-- Two ticks that each deliver an untimed packet. -/
def untimedTicks : List Tick :=
  [ { running := true, packet := untimedPacket, video_status := 0, audio_status := 0,
      audio := goodAudioEnv },
    { running := true, packet := untimedPacket, video_status := 0, audio_status := 0,
      audio := goodAudioEnv } ]

/-- A tick that delivers an untimed packet and produces an audio packet. -/
def untimedTick : Tick :=
  { running := true, packet := untimedPacket, video_status := 0, audio_status := 0,
    audio := goodAudioEnv }

/-- Four audio-stage calls: a packet, a failed conversion, a buffering encoder, a packet. -/
def sampleAudioEnvs : List AudioEnv :=
  [goodAudioEnv, { goodAudioEnv with convert := -1 }, bufferingAudioEnv, goodAudioEnv]

/-- A sequence of `pushPacket` calls with no pop in between: the statuses returned, in
call order, and the publisher after the last call. -/
def pushPackets (p : Publisher) : List (AVPacket × PushEnv) → List Int × Publisher
  | [] => ([], p)
  | (pkt, env) :: rest =>
    let r := pushPacket p pkt env
    let rs := pushPackets r.2.1 rest
    (r.1 :: rs.1, rs.2)

/-- Allocator answers under which `pushPacket` obtains its copy. -/
def goodPushEnv : PushEnv := { new_packet := 0, copy_packet := 0 }

/-- The answers of `goodInitEnv`, except that `avio_open` fails. -/
def openFailsEnv : InitEnv := { goodInitEnv with avio_open := -1 }

/-- The answers of `goodInitEnv`, except that `avformat_write_header` fails. -/
def headerFailsEnv : InitEnv := { goodInitEnv with write_header := -1 }

/-- The answers of `goodInitEnv`, except that `swr_init` fails inside `openAudio`. -/
def resamplerFailsEnv : InitEnv := { goodInitEnv with swr_init := -1 }

/-- What a caller can see of the resources after `init`: the status, `isInitialized`, and
the states of the output context, encoder, encoder frame, raw frame and resampler. -/
def initFootprint (r : Int × Publisher × List Call) :
    Int × Bool × PtrState × PtrState × PtrState × PtrState × PtrState :=
  (r.1, r.2.1.isInitialized, r.2.1.mOutFmtCtx.state, r.2.1.mAudioOutStream.enc.state,
    r.2.1.mAudioOutStream.frame.state, r.2.1.mAudioOutStream.tmp_frame.state,
    r.2.1.mAudioOutStream.swr_ctx.state)

/-! ## Properties -/

/-! ### Arithmetic of the rescaling routine -/

theorem wrapInt32_of_range (x : Int) (h0 : 0 ≤ x) (h1 : x ≤ INT_MAX) : wrapInt32 x = x := by
  unfold wrapInt32
  unfold INT_MAX at h1
  omega

theorem rescale_same_rate (nb sr : Int) (hsr : 0 < sr) (h0 : 0 ≤ nb) (h1 : nb ≤ INT_MAX) :
    av_rescale_rnd nb sr sr .UP = nb := by
  have hq : (nb * sr + (sr - 1)) / sr = nb := by
    rw [add_comm, Int.add_mul_ediv_right _ _ (ne_of_gt hsr),
      Int.ediv_eq_zero_of_lt (by omega) (by omega)]
    simp
  unfold av_rescale_rnd rescaleNonneg AVRounding.addend
  have h2 : ¬ (sr ≤ 0 ∨ sr < 0) := by omega
  have h3 : ¬ (nb < 0) := by omega
  have h4 : ¬ (nb > INT64_MAX) := by
    unfold INT_MAX at h1
    unfold INT64_MAX
    omega
  simp only [h2, h3, if_false, hq, h4]

/-! ### The audio stage on a ready stream -/

theorem writeAudioFrame_ready (ost : OutputStream) (ast : AVStream) (c : AVCodecContext)
    (nb : Int) (env : AudioEnv) (hr : AudioReady ost ast c nb) (hd : env.swr_delay = 0) :
    ∃ pkt ost1, writeAudioFrame ost env = some (pkt, env.produced, ost1) ∧
      AudioReady ost1 ast c nb ∧
      (env.produced = true → pkt = env.encoded) ∧
      ost1.samples_count = ost.samples_count + (if env.converted then nb else 0) ∧
      (env.converted = true → ∃ f, ost1.frame = .live f ∧
        f.pts = av_rescale_q ost.samples_count ⟨1, c.sample_rate⟩ c.time_base) ∧
      (env.converted = false → ost1.frame = ost.frame) := by
  obtain ⟨hst, henc, hswr, ⟨f, hf⟩, ⟨tp, htf⟩, hsr, h0, h1⟩ := hr
  have hw := wrapInt32_of_range nb h0 h1
  have hs := rescale_same_rate nb c.sample_rate hsr h0 h1
  unfold writeAudioFrame getAudioFrame
  simp only [htf, Ptr.read, Ptr.write, henc, hswr, hf, hd, hs, hw, ne_eq, not_true_eq_false,
    if_false, zero_add]
  unfold AudioEnv.produced AudioEnv.converted
  by_cases hm : env.make_writable < 0
  · have hm2 : ¬ (0 ≤ env.make_writable) := by omega
    simp only [hm, hm2, if_true, decide_False, Bool.false_and]
    exact ⟨_, _, rfl, ⟨hst, rfl, rfl, ⟨_, rfl⟩, ⟨_, rfl⟩, hsr, h0, h1⟩, by simp, by simp,
      by simp, fun _ => rfl⟩
  · have hm2 : 0 ≤ env.make_writable := by omega
    by_cases hc : env.convert < 0
    · have hc2 : ¬ (0 ≤ env.convert) := by omega
      simp only [hm, hm2, hc, hc2, if_true, if_false, decide_True, decide_False,
        Bool.true_and, Bool.false_and]
      exact ⟨_, _, rfl, ⟨hst, rfl, rfl, ⟨_, rfl⟩, ⟨_, rfl⟩, hsr, h0, h1⟩, by simp, by simp,
        by simp, fun _ => rfl⟩
    · have hc2 : 0 ≤ env.convert := by omega
      by_cases hsend : env.send_frame < 0
      · have hsend2 : ¬ (0 ≤ env.send_frame) := by omega
        simp only [hm, hm2, hc, hc2, hsend, hsend2, if_true, if_false, decide_True,
          decide_False, Bool.true_and, Bool.false_and, Bool.and_false]
        exact ⟨_, _, rfl, ⟨hst, rfl, rfl, ⟨_, rfl⟩, ⟨_, rfl⟩, hsr, h0, h1⟩, by simp,
          by simp, fun _ => ⟨_, rfl, rfl⟩, by simp⟩
      · have hsend2 : 0 ≤ env.send_frame := by omega
        by_cases hrcv : env.receive_packet < 0
        · have hrcv2 : ¬ (0 ≤ env.receive_packet) := by omega
          simp only [hm, hm2, hc, hc2, hsend, hsend2, hrcv, hrcv2, if_true, if_false,
            decide_True, decide_False, Bool.true_and, Bool.false_and, Bool.and_false]
          exact ⟨_, _, rfl, ⟨hst, rfl, rfl, ⟨_, rfl⟩, ⟨_, rfl⟩, hsr, h0, h1⟩, by simp,
            by simp, fun _ => ⟨_, rfl, rfl⟩, by simp⟩
        · have hrcv2 : 0 ≤ env.receive_packet := by omega
          simp only [hm, hm2, hc, hc2, hsend, hsend2, hrcv, hrcv2, if_true, if_false,
            decide_True, decide_False, Bool.true_and, Bool.false_and, Bool.and_false]
          exact ⟨_, _, rfl, ⟨hst, rfl, rfl, ⟨_, rfl⟩, ⟨_, rfl⟩, hsr, h0, h1⟩, fun _ => rfl,
            by simp, fun _ => ⟨_, rfl, rfl⟩, by simp⟩

/-! ### One iteration and the whole loop on a ready pipeline -/

theorem publishIteration_ready (p : Publisher) (vst ast : AVStream) (c : AVCodecContext)
    (nb k : Int) (t : Tick) (hr : PipelineReady p vst ast c nb)
    (hd : t.audio.swr_delay = 0) :
    ∃ p1, publishIteration p k t = some (p1, wrapInt32 (k + 1), tickCalls vst ast c k t) ∧
      PipelineReady p1 vst ast c nb := by
  obtain ⟨⟨ctx, hctx⟩, hv, ha⟩ := hr
  obtain ⟨pkt, ost1, hw, hr1, hp, -, -, -⟩ :=
    writeAudioFrame_ready p.mAudioOutStream ast c nb t.audio ha hd
  unfold publishIteration tickCalls
  simp only [hv, hctx, Ptr.read, hw]
  by_cases hg : t.audio.produced = true
  · have hpk := hp hg
    subst hpk
    simp only [hg, if_true, hr1.enc, hr1.st, Ptr.read]
    exact ⟨_, rfl, ⟨⟨ctx, rfl⟩, rfl, hr1⟩⟩
  · have hg2 : t.audio.produced = false := by simpa using hg
    simp only [hg2, if_false, Bool.false_eq_true]
    exact ⟨_, rfl, ⟨⟨ctx, rfl⟩, rfl, hr1⟩⟩

theorem publishFrom_ready (vst ast : AVStream) (c : AVCodecContext) (nb : Int)
    (ticks : List Tick) :
    ∀ (p : Publisher) (k : Int), PipelineReady p vst ast c nb →
      (∀ t ∈ ticks, t.running = true ∧ t.audio.swr_delay = 0) →
      ∃ p1, publishFrom p k ticks
          = some (p1, counterAfter k ticks.length, loopCalls vst ast c k ticks) ∧
        PipelineReady p1 vst ast c nb := by
  induction ticks with
  | nil =>
    intro p k hr _
    exact ⟨p, rfl, hr⟩
  | cons t ts ih =>
    intro p k hr ht
    have h0 := ht t (List.mem_cons_self t ts)
    obtain ⟨p1, h1, hr1⟩ := publishIteration_ready p vst ast c nb k t hr h0.2
    obtain ⟨p2, h2, hr2⟩ := ih p1 (wrapInt32 (k + 1)) hr1
      (fun u hu => ht u (List.mem_cons_of_mem t hu))
    refine ⟨p2, ?_, hr2⟩
    simp only [publishFrom, h0.1, if_true, h1, h2, loopCalls, counterAfter, List.length_cons]

/-! ### Observations distribute over the log -/

theorem sinkWrites_append (xs ys : List Call) :
    sinkWrites (xs ++ ys) = sinkWrites xs ++ sinkWrites ys := by
  induction xs with
  | nil => rfl
  | cons x xs ih => cases x <;> simp [sinkWrites, ih]

theorem rescaleCalls_append (xs ys : List Call) :
    rescaleCalls (xs ++ ys) = rescaleCalls xs ++ rescaleCalls ys := by
  induction xs with
  | nil => rfl
  | cons x xs ih => cases x <;> simp [rescaleCalls, ih]

theorem videoWrites_append (xs ys : List Call) :
    videoWrites (xs ++ ys) = videoWrites xs ++ videoWrites ys := by
  simp [videoWrites, sinkWrites_append]

theorem sinkWrites_tickCalls (vst ast : AVStream) (c : AVCodecContext) (k : Int) (t : Tick) :
    sinkWrites (tickCalls vst ast c k t)
      = (Media.video, prepareVideo (assignVideoTs t.packet k) vst) ::
          (if t.audio.produced then [(Media.audio, prepareAudio t.audio.encoded c ast)]
           else []) := by
  unfold tickCalls
  by_cases hg : t.audio.produced = true <;> by_cases hv : t.video_status < 0 <;>
    by_cases ha : t.audio_status < 0 <;> simp [hg, hv, ha, sinkWrites]

theorem rescaleCalls_tickCalls (vst ast : AVStream) (c : AVCodecContext) (k : Int)
    (t : Tick) :
    rescaleCalls (tickCalls vst ast c k t)
      = (Media.video, (⟨1, FRAME_RATE⟩ : AVRational), vst.time_base) ::
          (if t.audio.produced then [(Media.audio, c.time_base, ast.time_base)] else []) := by
  unfold tickCalls
  by_cases hg : t.audio.produced = true <;> by_cases hv : t.video_status < 0 <;>
    by_cases ha : t.audio_status < 0 <;> simp [hg, hv, ha, rescaleCalls]

theorem count_audio_stage_tickCalls (vst ast : AVStream) (c : AVCodecContext) (k : Int)
    (t : Tick) : (tickCalls vst ast c k t).count Call.audio_stage = 1 := by
  unfold tickCalls
  by_cases hg : t.audio.produced = true <;> by_cases hv : t.video_status < 0 <;>
    by_cases ha : t.audio_status < 0 <;> simp [hg, hv, ha, List.count_cons]

theorem videoWrites_tickCalls (vst ast : AVStream) (c : AVCodecContext) (k : Int) (t : Tick) :
    videoWrites (tickCalls vst ast c k t) = [prepareVideo (assignVideoTs t.packet k) vst] := by
  unfold videoWrites
  rw [sinkWrites_tickCalls]
  by_cases hg : t.audio.produced = true <;> simp [hg]

/-! ### The loop counter -/

theorem wrapInt32_succ (s : Int) : wrapInt32 (wrapInt32 s + 1) = wrapInt32 (s + 1) := by
  unfold wrapInt32
  omega

theorem counterAfter_wrap (n : Nat) : ∀ s : Int,
    counterAfter (wrapInt32 s) n = wrapInt32 (s + n) := by
  induction n with
  | zero => intro s; simp [counterAfter]
  | succ n ih =>
    intro s
    rw [counterAfter, wrapInt32_succ, ih]
    push_cast
    ring_nf

/-- The 32-bit loop counter after 2^31 iterations from 0: it has wrapped to -2^31. -/
theorem counter_wraps : counterAfter 0 2147483648 = -2147483648 := by
  have h := counterAfter_wrap 2147483648 0
  have h0 : wrapInt32 0 = 0 := by decide
  rw [h0] at h
  rw [h]
  decide

theorem videoWrites_loopCalls (vst ast : AVStream) (c : AVCodecContext) (ticks : List Tick) :
    ∀ (s : Int) (i : Nat),
      (videoWrites (loopCalls vst ast c (wrapInt32 s) ticks))[i]?
        = (ticks[i]?).map
            (fun t => prepareVideo (assignVideoTs t.packet (wrapInt32 (s + i))) vst) := by
  induction ticks with
  | nil => intro s i; simp [loopCalls, videoWrites, sinkWrites]
  | cons t ts ih =>
    intro s i
    rw [loopCalls, videoWrites_append, videoWrites_tickCalls, wrapInt32_succ]
    cases i with
    | zero => simp
    | succ i =>
      simp only [List.singleton_append, List.getElem?_cons_succ]
      rw [ih (s + 1) i]
      push_cast
      ring_nf

/-! ### Round-to-nearest rescaling of non-negative values -/

theorem rescale_near_eq (a b c : Int) (ha : 0 ≤ a) (hb : 0 ≤ b) (hc : 0 < c)
    (hq : (a * b + c / 2) / c ≤ INT64_MAX) :
    av_rescale_rnd a b c .NEAR_INF = (a * b + c / 2) / c := by
  unfold av_rescale_rnd rescaleNonneg AVRounding.addend
  have h1 : ¬ (c ≤ 0 ∨ b < 0) := by omega
  have h2 : ¬ (a < 0) := by omega
  have h3 : ¬ ((a * b + c / 2) / c > INT64_MAX) := by omega
  simp only [h1, h2, h3, if_false]

theorem rescale_quotient_bound (a b c : Int) (ha : 0 ≤ a) (ha1 : a ≤ INT_MAX) (hb : 0 ≤ b)
    (hb1 : b ≤ INT_MAX) (hc : 0 < c) : (a * b + c / 2) / c ≤ INT64_MAX := by
  have hab : a * b ≤ INT_MAX * INT_MAX := mul_le_mul ha1 hb1 hb (by decide)
  have hab0 : 0 ≤ a * b := mul_nonneg ha hb
  have h1 : (a * b + c / 2) / c ≤ (a * b + 1 * c) / c := by
    apply Int.ediv_le_ediv hc
    have : c / 2 ≤ c := by omega
    omega
  rw [Int.add_mul_ediv_right _ _ (ne_of_gt hc)] at h1
  have h2 : a * b / c ≤ a * b := Int.ediv_le_self _ hab0
  have h3 : INT_MAX * INT_MAX + 1 ≤ INT64_MAX := by decide
  omega

theorem rescale_near_mono (a a1 b c : Int) (ha : 0 ≤ a) (hle : a ≤ a1) (hb : 0 ≤ b)
    (hc : 0 < c) (hq : (a1 * b + c / 2) / c ≤ INT64_MAX) :
    av_rescale_rnd a b c .NEAR_INF ≤ av_rescale_rnd a1 b c .NEAR_INF := by
  have hm : a * b ≤ a1 * b := mul_le_mul_of_nonneg_right hle hb
  have hd : (a * b + c / 2) / c ≤ (a1 * b + c / 2) / c :=
    Int.ediv_le_ediv hc (by omega)
  rw [rescale_near_eq a b c ha hb hc (le_trans hd hq),
    rescale_near_eq a1 b c (le_trans ha hle) hb hc hq]
  exact hd

theorem rescale_near_strict (a a1 b c : Int) (ha : 0 ≤ a) (hlt : a < a1) (hc : 0 < c)
    (hbc : c ≤ b) (hq : (a1 * b + c / 2) / c ≤ INT64_MAX) :
    av_rescale_rnd a b c .NEAR_INF < av_rescale_rnd a1 b c .NEAR_INF := by
  have hb : 0 ≤ b := by omega
  have hm : (a + 1) * b ≤ a1 * b := mul_le_mul_of_nonneg_right (by omega) hb
  have hm2 : (a + 1) * b = a * b + b := by ring
  have hd : (a * b + c / 2 + 1 * c) / c ≤ (a1 * b + c / 2) / c :=
    Int.ediv_le_ediv hc (by omega)
  rw [Int.add_mul_ediv_right _ _ (ne_of_gt hc)] at hd
  rw [rescale_near_eq a b c ha hb hc (by omega),
    rescale_near_eq a1 b c (by omega) hb hc hq]
  omega

theorem rescale_q_zero (bq cq : AVRational) (hb : 0 ≤ bq.num * cq.den)
    (hc : 0 < cq.num * bq.den) : av_rescale_q 0 bq cq = 0 := by
  unfold av_rescale_q
  have h0 : ((0 : Int) * (bq.num * cq.den) + cq.num * bq.den / 2) / (cq.num * bq.den) = 0 := by
    rw [zero_mul, zero_add]
    exact Int.ediv_eq_zero_of_lt (by omega) (by omega)
  rw [rescale_near_eq 0 _ _ (le_refl 0) hb hc (by rw [h0]; decide), h0]

theorem rescale_q_nominal_90000 (i : Int) (h0 : 0 ≤ i) (h1 : i ≤ INT_MAX) :
    av_rescale_q i ⟨1, FRAME_RATE⟩ ⟨1, 90000⟩ = 3600 * i := by
  unfold av_rescale_q
  have hq : (i * (1 * 90000) + 1 * FRAME_RATE / 2) / (1 * FRAME_RATE) = 3600 * i := by
    unfold FRAME_RATE
    omega
  rw [rescale_near_eq i _ _ h0 (by decide) (by decide) (by
    rw [hq]; unfold INT_MAX at h1; unfold INT64_MAX; omega), hq]

/-! ### Concrete inputs are well formed -/

theorem init_good :
    (init (Publisher.new 4 blankAudio) goodInitEnv).map (fun r => (r.1, r.2.1))
      = some (0, readyPublisher) := by decide

theorem readyPublisher_ready :
    PipelineReady readyPublisher readyVideoStream readyAudioStream readyEncoder 1024 :=
  ⟨⟨_, rfl⟩, rfl, ⟨rfl, rfl, rfl, ⟨_, rfl⟩, ⟨_, rfl⟩, by decide, by decide, by decide⟩⟩

theorem sampleTicks_running :
    ∀ t ∈ sampleTicks, t.running = true ∧ t.audio.swr_delay = 0 := by decide

/-! ### Stamping of untimed video packets -/

/-- C1: on a ready pipeline whose ticks all find the loop running, `publish` completes,
and the video packet written for the tick at index `k` is the rescaled image of the popped
packet stamped as follows: a packet whose PTS is `AV_NOPTS_VALUE` gets PTS = DTS = `k` and
duration 0 before rescaling; any other packet enters the rescaling exactly as it arrived. -/
theorem publish_stamps_untimed_video (p : Publisher) (vst ast : AVStream)
    (c : AVCodecContext) (nb : Int) (ticks : List Tick)
    (hready : PipelineReady p vst ast c nb)
    (hticks : ∀ t ∈ ticks, t.running = true ∧ t.audio.swr_delay = 0)
    (hlen : (ticks.length : Int) ≤ 2147483648) :
    ∃ p1 last calls, publish p ticks = some (p1, last, calls) ∧
      ∀ (k : Nat) (t : Tick), ticks[k]? = some t →
        ∃ stamped, (videoWrites calls)[k]? = some (prepareVideo stamped vst) ∧
          (t.packet.pts = AV_NOPTS_VALUE →
            stamped = { t.packet with pts := k, dts := k, duration := 0 }) ∧
          (t.packet.pts ≠ AV_NOPTS_VALUE → stamped = t.packet) := by
  obtain ⟨p1, hrun, -⟩ := publishFrom_ready vst ast c nb ticks p 0 hready hticks
  refine ⟨p1, _, _, hrun, ?_⟩
  intro k t hk
  have hkl : k < ticks.length := by
    rcases List.getElem?_eq_some_iff.mp hk with ⟨h, -⟩
    exact h
  have hw : wrapInt32 ((0 : Int) + k) = k := by
    unfold wrapInt32
    omega
  have h0 : (0 : Int) = wrapInt32 0 := by decide
  refine ⟨assignVideoTs t.packet k, ?_, ?_, ?_⟩
  · rw [h0, videoWrites_loopCalls, hk, hw]
    rfl
  · intro hp
    simp [assignVideoTs, hp]
  · intro hp
    simp [assignVideoTs, hp]

/-- Witness of C1 on `readyPublisher` and `sampleTicks`. -/
theorem publish_stamps_untimed_video_witness :
    ∃ p1 last calls, publish readyPublisher sampleTicks = some (p1, last, calls) ∧
      ∀ (k : Nat) (t : Tick), sampleTicks[k]? = some t →
        ∃ stamped, (videoWrites calls)[k]? = some (prepareVideo stamped readyVideoStream) ∧
          (t.packet.pts = AV_NOPTS_VALUE →
            stamped = { t.packet with pts := k, dts := k, duration := 0 }) ∧
          (t.packet.pts ≠ AV_NOPTS_VALUE → stamped = t.packet) :=
  publish_stamps_untimed_video readyPublisher readyVideoStream readyAudioStream readyEncoder
    1024 sampleTicks readyPublisher_ready sampleTicks_running (by decide)

/-! ### Written timestamps of untimed video -/

theorem untimed_written_ts (vst : AVStream) (t : Tick) (k : Int) (hk : 0 ≤ k)
    (hp : t.packet.pts = AV_NOPTS_VALUE) :
    (prepareVideo (assignVideoTs t.packet k) vst).pts
        = av_rescale_q k ⟨1, FRAME_RATE⟩ vst.time_base ∧
      (prepareVideo (assignVideoTs t.packet k) vst).dts
        = av_rescale_q k ⟨1, FRAME_RATE⟩ vst.time_base := by
  have hne : k ≠ AV_NOPTS_VALUE := by
    unfold AV_NOPTS_VALUE
    omega
  simp [prepareVideo, assignVideoTs, hp, av_packet_rescale_ts, hne]

theorem untimed_written_lists (vst ast : AVStream) (c : AVCodecContext) (ticks : List Tick)
    (hun : ∀ t ∈ ticks, t.packet.pts = AV_NOPTS_VALUE)
    (hlen : (ticks.length : Int) ≤ 2147483648) :
    (videoWrites (loopCalls vst ast c 0 ticks)).map (fun pkt => pkt.pts)
        = (List.range ticks.length).map
            (fun (i : Nat) => av_rescale_q (i : Int) ⟨1, FRAME_RATE⟩ vst.time_base) ∧
      (videoWrites (loopCalls vst ast c 0 ticks)).map (fun pkt => pkt.dts)
        = (List.range ticks.length).map
            (fun (i : Nat) => av_rescale_q (i : Int) ⟨1, FRAME_RATE⟩ vst.time_base) := by
  have h0 : (0 : Int) = wrapInt32 0 := by decide
  have key : ∀ i : Nat, ∀ t, ticks[i]? = some t →
      (prepareVideo (assignVideoTs t.packet (wrapInt32 ((0 : Int) + i))) vst).pts
          = av_rescale_q (i : Int) ⟨1, FRAME_RATE⟩ vst.time_base ∧
        (prepareVideo (assignVideoTs t.packet (wrapInt32 ((0 : Int) + i))) vst).dts
          = av_rescale_q (i : Int) ⟨1, FRAME_RATE⟩ vst.time_base := by
    intro i t hi
    rcases List.getElem?_eq_some_iff.mp hi with ⟨hlt, heq⟩
    have hw : wrapInt32 ((0 : Int) + i) = i := by
      unfold wrapInt32
      omega
    rw [hw]
    exact untimed_written_ts vst t i (by omega) (hun t (heq ▸ List.getElem_mem _))
  constructor <;>
  · apply List.ext_getElem?
    intro i
    rw [List.getElem?_map, h0, videoWrites_loopCalls, List.getElem?_map]
    by_cases hi : i < ticks.length
    · rw [List.getElem?_range hi]
      have hti : ticks[i]? = some ticks[i] := List.getElem?_eq_getElem hi
      have hk := key i _ hti
      rw [zero_add] at hk
      rw [hti]
      simp [hk.1, hk.2]
    · have h1 : ticks[i]? = none := List.getElem?_eq_none (by omega)
      have h2 : (List.range ticks.length)[i]? = none :=
        List.getElem?_eq_none (by simp; omega)
      rw [h1, h2]
      rfl

/-- C2 (as amended): on a ready pipeline behind a video stream with a valid time base
`num/den`, for at most 2^31 untimed video packets, `publish` completes and writes the
`i`-th packet with PTS = DTS = `av_rescale_q i (1,25) (num,den)`; the written PTS values
start at 0 and never decrease; they increase strictly when the output time base is no
coarser than the nominal one (`25 * num ≤ den`); with time base (1,90000) the `i`-th
written PTS is `3600 * i`. -/
theorem publish_untimed_video_pts (p : Publisher) (vst ast : AVStream) (c : AVCodecContext)
    (nb : Int) (ticks : List Tick)
    (hready : PipelineReady p vst ast c nb)
    (hticks : ∀ t ∈ ticks, t.running = true ∧ t.audio.swr_delay = 0)
    (huntimed : ∀ t ∈ ticks, t.packet.pts = AV_NOPTS_VALUE)
    (hlen : (ticks.length : Int) ≤ 2147483648)
    (hnum : 0 < vst.time_base.num) (hden : 0 < vst.time_base.den)
    (hden1 : vst.time_base.den ≤ INT_MAX) :
    ∃ p1 last calls, publish p ticks = some (p1, last, calls) ∧
      (videoWrites calls).map (fun pkt => pkt.pts)
        = (List.range ticks.length).map
            (fun (i : Nat) => av_rescale_q (i : Int) ⟨1, FRAME_RATE⟩ vst.time_base) ∧
      (videoWrites calls).map (fun pkt => pkt.dts)
        = (videoWrites calls).map (fun pkt => pkt.pts) ∧
      (ticks ≠ [] → ((videoWrites calls).map (fun pkt => pkt.pts)).head? = some 0) ∧
      List.Pairwise (fun a b => a ≤ b) ((videoWrites calls).map (fun pkt => pkt.pts)) ∧
      (FRAME_RATE * vst.time_base.num ≤ vst.time_base.den →
        List.Pairwise (fun a b => a < b) ((videoWrites calls).map (fun pkt => pkt.pts))) ∧
      (vst.time_base = ⟨1, 90000⟩ →
        (videoWrites calls).map (fun pkt => pkt.pts)
          = (List.range ticks.length).map (fun (i : Nat) => 3600 * (i : Int))) := by
  obtain ⟨p1, hrun, -⟩ := publishFrom_ready vst ast c nb ticks p 0 hready hticks
  obtain ⟨hpts, hdts⟩ := untimed_written_lists vst ast c ticks huntimed hlen
  have hb : 0 ≤ (1 : Int) * vst.time_base.den := by omega
  have hb1 : (1 : Int) * vst.time_base.den ≤ INT_MAX := by omega
  have hc : 0 < vst.time_base.num * FRAME_RATE := by
    unfold FRAME_RATE
    omega
  have hbound : ∀ i : Nat, i < ticks.length →
      ((i : Int) * (1 * vst.time_base.den) + vst.time_base.num * FRAME_RATE / 2)
        / (vst.time_base.num * FRAME_RATE) ≤ INT64_MAX := by
    intro i hi
    exact rescale_quotient_bound _ _ _ (by omega) (by unfold INT_MAX; omega) hb hb1 hc
  refine ⟨p1, _, _, hrun, hpts, by rw [hdts, hpts], ?_, ?_, ?_, ?_⟩
  · intro hne
    rw [hpts]
    cases hticks_eq : ticks with
    | nil => exact absurd hticks_eq hne
    | cons t ts =>
      simp only [List.length_cons, List.range_succ_eq_map, List.map_cons, List.head?_cons]
      rw [Nat.cast_zero, rescale_q_zero _ _ hb hc]
  · rw [hpts, List.pairwise_map]
    refine List.Pairwise.imp_of_mem ?_ (List.pairwise_lt_range ticks.length)
    intro a b _ hbm hab
    exact rescale_near_mono _ _ _ _ (by omega) (by omega) hb hc
      (hbound b (List.mem_range.mp hbm))
  · intro hfine
    rw [hpts, List.pairwise_map]
    refine List.Pairwise.imp_of_mem ?_ (List.pairwise_lt_range ticks.length)
    intro a b _ hbm hab
    have hfine1 : vst.time_base.num * FRAME_RATE ≤ 1 * vst.time_base.den := by
      rw [mul_comm] at hfine
      omega
    exact rescale_near_strict _ _ _ _ (by omega) (by omega) hc hfine1
      (hbound b (List.mem_range.mp hbm))
  · intro htb
    rw [hpts, htb]
    apply List.map_congr_left
    intro i hi
    have hil := List.mem_range.mp hi
    exact rescale_q_nominal_90000 i (by omega) (by unfold INT_MAX; omega)

/-- Witness of C2 (as amended): fifty untimed packets behind a 1/90000 video stream are
written with PTS 0, 3600, 7200, ..., 176400. -/
theorem publish_untimed_video_pts_witness :
    ∃ p1 last calls,
      publish readyPublisher (List.replicate 50 untimedTick) = some (p1, last, calls) ∧
      (videoWrites calls).map (fun pkt => pkt.pts)
        = (List.range 50).map (fun (i : Nat) => 3600 * (i : Int)) ∧
      List.Pairwise (fun a b => a < b) ((videoWrites calls).map (fun pkt => pkt.pts)) := by
  obtain ⟨p1, last, calls, hrun, -, -, -, -, hstrict, h90⟩ :=
    publish_untimed_video_pts readyPublisher readyVideoStream readyAudioStream readyEncoder
      1024 (List.replicate 50 untimedTick) readyPublisher_ready
      (fun t ht => by rw [List.eq_of_mem_replicate ht]; exact ⟨rfl, rfl⟩)
      (fun t ht => by rw [List.eq_of_mem_replicate ht]; rfl)
      (by decide) (by decide) (by decide) (by decide)
  refine ⟨p1, last, calls, hrun, ?_, hstrict (by decide)⟩
  have h := h90 rfl
  rw [List.length_replicate] at h
  exact h

/-- Counterexample to C2 as stated: behind a video stream with time base (1,1) two untimed
packets are both written with PTS 0, so the written PTS values do not increase strictly. -/
theorem coarse_time_base_repeats_pts :
    (publish coarsePublisher untimedTicks).map
        (fun r => (videoWrites r.2.2).map (fun pkt => pkt.pts)) = some [0, 0] ∧
      ¬ List.Pairwise (fun a b => a < b) ([0, 0] : List Int) := by
  constructor
  · decide
  · decide

/-! ### Rescaling and write order -/

theorem sinkWrites_loopCalls (vst ast : AVStream) (c : AVCodecContext) (ticks : List Tick) :
    ∀ k : Int, (sinkWrites (loopCalls vst ast c k ticks)).map (fun w => w.1)
      = ticks.flatMap
          (fun t => if t.audio.produced then [Media.video, Media.audio] else [Media.video]) := by
  induction ticks with
  | nil => intro k; rfl
  | cons t ts ih =>
    intro k
    rw [loopCalls, sinkWrites_append, List.map_append, ih, sinkWrites_tickCalls,
      List.flatMap_cons]
    by_cases hg : t.audio.produced = true <;> simp [hg]

theorem count_audio_stage_loopCalls (vst ast : AVStream) (c : AVCodecContext)
    (ticks : List Tick) :
    ∀ k : Int, (loopCalls vst ast c k ticks).count Call.audio_stage = ticks.length := by
  induction ticks with
  | nil => intro k; rfl
  | cons t ts ih =>
    intro k
    rw [loopCalls, List.count_append, ih, count_audio_stage_tickCalls, List.length_cons]
    omega

theorem videoWrites_loopCalls_length (vst ast : AVStream) (c : AVCodecContext)
    (ticks : List Tick) :
    ∀ k : Int, (videoWrites (loopCalls vst ast c k ticks)).length = ticks.length := by
  induction ticks with
  | nil => intro k; rfl
  | cons t ts ih =>
    intro k
    rw [loopCalls, videoWrites_append, videoWrites_tickCalls, List.length_append, ih]
    simp only [List.length_cons, List.length_nil]
    omega

/-- C3: one iteration of the publishing loop on a ready pipeline, at any loop counter,
completes and leaves the pipeline ready; it calls `av_packet_rescale_ts` once on the video
packet, from (1,25) into the video stream's time base, and once more on the audio packet,
from the encoder's into the audio stream's time base, exactly when one was produced; the
packets handed to the sink are these singly rescaled packets, each tagged with the index
of its own stream. -/
theorem publish_rescales_each_packet_once (p : Publisher) (vst ast : AVStream)
    (c : AVCodecContext) (nb k : Int) (t : Tick)
    (hready : PipelineReady p vst ast c nb) (hdelay : t.audio.swr_delay = 0) :
    ∃ p1 calls, publishIteration p k t = some (p1, wrapInt32 (k + 1), calls) ∧
      PipelineReady p1 vst ast c nb ∧
      rescaleCalls calls
        = (Media.video, (⟨1, FRAME_RATE⟩ : AVRational), vst.time_base) ::
            (if t.audio.produced then [(Media.audio, c.time_base, ast.time_base)] else []) ∧
      sinkWrites calls
        = (Media.video,
            { av_packet_rescale_ts (assignVideoTs t.packet k) ⟨1, FRAME_RATE⟩ vst.time_base
              with stream_index := vst.index, pos := -1 }) ::
            (if t.audio.produced then
              [(Media.audio,
                { av_packet_rescale_ts t.audio.encoded c.time_base ast.time_base
                  with stream_index := ast.index })]
             else []) := by
  obtain ⟨p1, hrun, hr1⟩ := publishIteration_ready p vst ast c nb k t hready hdelay
  exact ⟨p1, _, hrun, hr1, rescaleCalls_tickCalls vst ast c k t,
    sinkWrites_tickCalls vst ast c k t⟩

/-- Witness of C3: `untimedTick` on `readyPublisher` at loop counter 0. -/
theorem publish_rescales_each_packet_once_witness :
    ∃ p1 calls, publishIteration readyPublisher 0 untimedTick = some (p1, 1, calls) ∧
      rescaleCalls calls
        = [(Media.video, ⟨1, 25⟩, ⟨1, 90000⟩), (Media.audio, ⟨1, 44100⟩, ⟨1, 44100⟩)] ∧
      (sinkWrites calls).map (fun w => (w.1, w.2.pts, w.2.stream_index))
        = [(Media.video, 0, 0), (Media.audio, 1024, 1)] := by
  obtain ⟨p1, calls, hrun, -, hres, hwr⟩ :=
    publish_rescales_each_packet_once readyPublisher readyVideoStream readyAudioStream
      readyEncoder 1024 0 untimedTick readyPublisher_ready rfl
  refine ⟨p1, calls, hrun, ?_, ?_⟩
  · rw [hres]
    decide
  · rw [hwr]
    decide

/-- C4: on a ready pipeline whose ticks all find the loop running, whatever statuses the
sink returns for the video and audio writes, `publish` runs the body for every tick: the
audio stage is invoked once per video packet, there is one video write per packet, and the
sink sees, per packet in pop order, a video write followed by an audio write exactly when
the audio stage reported a packet (which it does exactly when `AudioEnv.produced`). -/
theorem publish_write_order (p : Publisher) (vst ast : AVStream) (c : AVCodecContext)
    (nb : Int) (ticks : List Tick)
    (hready : PipelineReady p vst ast c nb)
    (hticks : ∀ t ∈ ticks, t.running = true ∧ t.audio.swr_delay = 0) :
    ∃ p1 last calls, publish p ticks = some (p1, last, calls) ∧
      calls.count Call.audio_stage = ticks.length ∧
      (videoWrites calls).length = ticks.length ∧
      (sinkWrites calls).map (fun w => w.1)
        = ticks.flatMap
            (fun t => if t.audio.produced then [Media.video, Media.audio]
                      else [Media.video]) ∧
      (∀ t ∈ ticks, ∀ ost, AudioReady ost ast c nb →
        (writeAudioFrame ost t.audio).map (fun r => r.2.1) = some t.audio.produced) := by
  obtain ⟨p1, hrun, -⟩ := publishFrom_ready vst ast c nb ticks p 0 hready hticks
  refine ⟨p1, _, _, hrun, count_audio_stage_loopCalls vst ast c ticks 0,
    videoWrites_loopCalls_length vst ast c ticks 0, sinkWrites_loopCalls vst ast c ticks 0, ?_⟩
  intro t ht ost hr
  obtain ⟨pkt, ost1, hw, -⟩ := writeAudioFrame_ready ost ast c nb t.audio hr (hticks t ht).2
  rw [hw]
  rfl

/-- Witness of C4: `sampleTicks`, whose second video write and third audio write fail. -/
theorem publish_write_order_witness :
    ∃ p1 last calls, publish readyPublisher sampleTicks = some (p1, last, calls) ∧
      calls.count Call.audio_stage = 3 ∧
      (sinkWrites calls).map (fun w => w.1)
        = [Media.video, Media.audio, Media.video, Media.video, Media.audio] := by
  obtain ⟨p1, last, calls, hrun, hcount, -, htrace, -⟩ :=
    publish_write_order readyPublisher readyVideoStream readyAudioStream readyEncoder 1024
      sampleTicks readyPublisher_ready sampleTicks_running
  exact ⟨p1, last, calls, hrun, hcount, by rw [htrace]; decide⟩

/-! ### Audio frame timestamps -/

theorem audioStages_ready (ast : AVStream) (c : AVCodecContext) (nb : Int)
    (envs : List AudioEnv) :
    ∀ ost : OutputStream, AudioReady ost ast c nb → (∀ env ∈ envs, env.swr_delay = 0) →
      ∃ results, audioStages ost envs = some results ∧ results.length = envs.length ∧
        results.map (fun r => r.1) = envs.map (fun env => env.produced) ∧
        frameStamps envs results
          = (List.range (envs.filter (fun env => env.converted)).length).map
              (fun (j : Nat) => av_rescale_q (ost.samples_count + nb * (j : Int))
                ⟨1, c.sample_rate⟩ c.time_base) := by
  induction envs with
  | nil =>
    intro ost _ _
    exact ⟨[], rfl, rfl, rfl, rfl⟩
  | cons env envs ih =>
    intro ost hr hd
    obtain ⟨pkt, ost1, hw, hr1, -, hsc, hconv, -⟩ :=
      writeAudioFrame_ready ost ast c nb env hr (hd env (List.mem_cons_self env envs))
    obtain ⟨results, hrun, hlen, hgot, hst⟩ :=
      ih ost1 hr1 (fun e he => hd e (List.mem_cons_of_mem env he))
    refine ⟨(env.produced, ost1) :: results, ?_, ?_, ?_, ?_⟩
    · simp only [audioStages, hw, hrun]
    · simp only [List.length_cons, hlen]
    · simp only [List.map_cons, hgot]
    · by_cases hcv : env.converted = true
      · obtain ⟨f, hf, hpts⟩ := hconv hcv
        have hfm : frameStamps (env :: envs) ((env.produced, ost1) :: results)
            = f.pts :: frameStamps envs results := by
          simp [frameStamps, hcv, hf, Ptr.read]
        rw [hfm, hst, hpts]
        simp only [List.filter_cons, hcv, if_true, List.length_cons, List.range_succ_eq_map,
          List.map_cons, List.map_map, Nat.cast_zero, mul_zero, add_zero]
        congr 1
        apply List.map_congr_left
        intro j _
        simp only [Function.comp, hsc, hcv, if_true, Nat.succ_eq_add_one, Nat.cast_add,
          Nat.cast_one]
        congr 1
        ring
      · have hcv2 : env.converted = false := by simpa using hcv
        have hfm : frameStamps (env :: envs) ((env.produced, ost1) :: results)
            = frameStamps envs results := by
          simp [frameStamps, hcv2]
        rw [hfm, hst]
        simp only [List.filter_cons, hcv2, Bool.false_eq_true, if_false, hsc, add_zero]

/-- C5: for a sequence of audio-stage calls on a ready stream whose encoder time base is
valid and whose sample count stays in `int` range, every call returns; the calls that
reach the stamping line give the encoder frame, in call order, the PTS values
`av_rescale_q (s + nb * j) (1, sample_rate) (encoder time base)` for `j = 0, 1, 2, ...`,
where `s` is the sample count held at the start and `nb * j` what the `j` earlier stamping
calls accumulated; this PTS sequence never decreases, whichever calls in between report
no packet. -/
theorem audio_frame_pts_cumulative (ost : OutputStream) (ast : AVStream)
    (c : AVCodecContext) (nb : Int) (envs : List AudioEnv)
    (hready : AudioReady ost ast c nb)
    (hdelay : ∀ env ∈ envs, env.swr_delay = 0)
    (hnum : 0 < c.time_base.num) (hden : 0 < c.time_base.den)
    (hden1 : c.time_base.den ≤ INT_MAX)
    (hcount0 : 0 ≤ ost.samples_count)
    (hcount1 : ost.samples_count + nb * (envs.length : Int) ≤ INT_MAX) :
    ∃ results, audioStages ost envs = some results ∧ results.length = envs.length ∧
      results.map (fun r => r.1) = envs.map (fun env => env.produced) ∧
      frameStamps envs results
        = (List.range (envs.filter (fun env => env.converted)).length).map
            (fun (j : Nat) => av_rescale_q (ost.samples_count + nb * (j : Int))
              ⟨1, c.sample_rate⟩ c.time_base) ∧
      List.Pairwise (fun a b => a ≤ b) (frameStamps envs results) := by
  obtain ⟨results, hrun, hlen, hgot, hst⟩ := audioStages_ready ast c nb envs ost hready hdelay
  refine ⟨results, hrun, hlen, hgot, hst, ?_⟩
  have hnb := hready.nb_nonneg
  have hsr := hready.rate_pos
  have hb : 0 ≤ (1 : Int) * c.time_base.den := by omega
  have hb1 : (1 : Int) * c.time_base.den ≤ INT_MAX := by omega
  have hc : 0 < c.time_base.num * c.sample_rate := mul_pos hnum hsr
  have hm : (envs.filter (fun env => env.converted)).length ≤ envs.length :=
    List.length_filter_le _ _
  rw [hst, List.pairwise_map]
  refine List.Pairwise.imp_of_mem ?_ (List.pairwise_lt_range _)
  intro i j _ hj hij
  have hjl := List.mem_range.mp hj
  have h1 : nb * (i : Int) ≤ nb * (j : Int) :=
    mul_le_mul_of_nonneg_left (by omega) hnb
  have h2 : nb * (j : Int) ≤ nb * (envs.length : Int) :=
    mul_le_mul_of_nonneg_left (by omega) hnb
  have h3 : 0 ≤ nb * (i : Int) := mul_nonneg hnb (by omega)
  exact rescale_near_mono _ _ _ _ (by omega) (by omega) hb hc
    (rescale_quotient_bound _ _ _ (by omega) (by omega) hb hb1 hc)

/-- Witness of C5: four calls on the audio stream of `readyPublisher`, of which the second
fails to convert; the three stamps are 0, 1024 and 2048. -/
theorem audio_frame_pts_cumulative_witness :
    ∃ results, audioStages readyPublisher.mAudioOutStream sampleAudioEnvs = some results ∧
      results.map (fun r => r.1) = [true, false, false, true] ∧
      frameStamps sampleAudioEnvs results = [0, 1024, 2048] ∧
      List.Pairwise (fun a b => a ≤ b) (frameStamps sampleAudioEnvs results) := by
  obtain ⟨results, hrun, -, hgot, hst, hmono⟩ :=
    audio_frame_pts_cumulative readyPublisher.mAudioOutStream readyAudioStream readyEncoder
      1024 sampleAudioEnvs readyPublisher_ready.audio (by decide) (by decide) (by decide)
      (by decide) (by decide) (by decide)
  refine ⟨results, hrun, ?_, ?_, hmono⟩
  · rw [hgot]
    decide
  · rw [hst]
    decide

/-! ### Start and stop -/

/-- Counterexample to C7 as stated: `start()` on a publisher on which `init` was never
called returns 0, sets `isStarted` and spawns the publishing thread. -/
theorem start_uninitialized_succeeds :
    start (Publisher.new 4 blankAudio)
      = (0, { Publisher.new 4 blankAudio with
                isStarted := true, mPublishingThread := .live () }, [Call.thread_spawn]) ∧
      (Publisher.new 4 blankAudio).isInitialized = false := by
  constructor <;> rfl

/-- C7 (as amended): `start()` does not look at `isInitialized`; on every publisher that
is not started, initialised or not, it returns 0, sets `isStarted`, spawns the publishing
thread and changes nothing else. -/
theorem start_ignores_initialization (p : Publisher) (hstopped : p.isStarted = false) :
    start p = (0, { p with isStarted := true, mPublishingThread := .live () },
      [Call.thread_spawn]) ∧
      (start p).2.1.isInitialized = p.isInitialized := by
  unfold start
  simp [hstopped]

/-- Witness of C7 (as amended) on a new, uninitialised publisher. -/
theorem start_ignores_initialization_witness :
    (Publisher.new 4 blankAudio).isStarted = false ∧
      start (Publisher.new 4 blankAudio)
        = (0, { Publisher.new 4 blankAudio with
                  isStarted := true, mPublishingThread := .live () }, [Call.thread_spawn]) :=
  ⟨rfl, (start_ignores_initialization (Publisher.new 4 blankAudio) rfl).1⟩

/-- C8: `start()` on a started publisher returns 0, leaves the state as it is and only
logs a warning (no thread is spawned); `stop()` on a publisher that is not started, such
as a new one, returns 0, leaves the state as it is and only logs a warning (no join). -/
theorem redundant_start_stop_are_noops (p : Publisher) :
    (p.isStarted = true →
      start p = (0, p, [Call.log .already_started]) ∧
        Call.thread_spawn ∉ (start p).2.2) ∧
    (p.isStarted = false →
      stop p = (0, p, [Call.log .not_started]) ∧ Call.thread_join ∉ (stop p).2.2) ∧
    (∀ (queue_size : Int) (audio : OutputStream),
      stop (Publisher.new queue_size audio)
        = (0, Publisher.new queue_size audio, [Call.log .not_started])) := by
  refine ⟨?_, ?_, ?_⟩
  · intro h
    simp [start, h]
  · intro h
    simp [stop, h]
  · intro n audio
    rfl

/-- Witness of C8: a second `start()` on a started publisher, and `stop()` on one that
was never started. -/
theorem redundant_start_stop_are_noops_witness :
    start (start readyPublisher).2.1 = (0, (start readyPublisher).2.1,
        [Call.log .already_started]) ∧
      stop readyPublisher = (0, readyPublisher, [Call.log .not_started]) :=
  ⟨((redundant_start_stop_are_noops (start readyPublisher).2.1).1 rfl).1,
    ((redundant_start_stop_are_noops readyPublisher).2.1 rfl).1⟩

/-! ### Packet hand-off -/

theorem pushPacket_success (p : Publisher) (pkt : AVPacket) (env : PushEnv)
    (h : (pushPacket p pkt env).1 = 0) :
    (p.mPktsQueue.items.length : Int) < p.mPktsQueue.capacity ∧
      (pushPacket p pkt env).2.1
        = { p with mPktsQueue :=
              { p.mPktsQueue with items := p.mPktsQueue.items ++ [pkt] } } := by
  unfold pushPacket PacketQueue.tryPush at h ⊢
  by_cases h1 : env.new_packet = 0
  · by_cases h2 : env.copy_packet = 0
    · by_cases h3 : (p.mPktsQueue.items.length : Int) < p.mPktsQueue.capacity
      · simp [h1, h2, h3]
      · simp [h1, h2, h3] at h
    · simp [h1, h2] at h
  · simp [h1] at h

theorem pushPacket_full (p : Publisher) (pkt : AVPacket) (env : PushEnv)
    (h : p.mPktsQueue.capacity ≤ (p.mPktsQueue.items.length : Int)) :
    (pushPacket p pkt env).1 = -1 ∧ (pushPacket p pkt env).2.1 = p ∧
      (env.new_packet = 0 → env.copy_packet = 0 →
        (pushPacket p pkt env).2.2
          = [Call.packet_alloc, Call.log .queue_full, Call.packet_unref pkt]) := by
  have h3 : ¬ (p.mPktsQueue.items.length : Int) < p.mPktsQueue.capacity := by omega
  unfold pushPacket PacketQueue.tryPush
  by_cases h1 : env.new_packet = 0
  · by_cases h2 : env.copy_packet = 0
    · simp [h1, h2, h3]
    · simp [h1, h2]
  · simp [h1]

theorem pushPacket_room (p : Publisher) (pkt : AVPacket) (env : PushEnv)
    (h : (p.mPktsQueue.items.length : Int) < p.mPktsQueue.capacity)
    (h1 : env.new_packet = 0) (h2 : env.copy_packet = 0) :
    pushPacket p pkt env
      = (0, { p with mPktsQueue :=
                { p.mPktsQueue with items := p.mPktsQueue.items ++ [pkt] } },
          [Call.packet_alloc]) := by
  unfold pushPacket PacketQueue.tryPush
  simp [h1, h2, h]

theorem pushPackets_all_success (pushes : List (AVPacket × PushEnv)) :
    ∀ p : Publisher, (∀ s ∈ (pushPackets p pushes).1, s = 0) →
      (pushPackets p pushes).2.mPktsQueue.capacity = p.mPktsQueue.capacity ∧
      (pushPackets p pushes).2.mPktsQueue.items.length
        = p.mPktsQueue.items.length + pushes.length ∧
      (pushes ≠ [] →
        ((pushPackets p pushes).2.mPktsQueue.items.length : Int)
          ≤ p.mPktsQueue.capacity) := by
  induction pushes with
  | nil =>
    intro p _
    exact ⟨rfl, rfl, fun h => absurd rfl h⟩
  | cons e rest ih =>
    intro p hok
    obtain ⟨pkt, env⟩ := e
    have h0 : (pushPacket p pkt env).1 = 0 := hok _ (by simp [pushPackets])
    obtain ⟨hroom, hst⟩ := pushPacket_success p pkt env h0
    have hrest : ∀ s ∈ (pushPackets (pushPacket p pkt env).2.1 rest).1, s = 0 :=
      fun s hs => hok s (by simp [pushPackets, hs])
    obtain ⟨hcap, hlen, hle⟩ := ih (pushPacket p pkt env).2.1 hrest
    rw [hst] at hcap hlen hle
    simp only [List.length_append, List.length_singleton] at hlen
    refine ⟨?_, ?_, fun _ => ?_⟩
    · simp only [pushPackets, hst]
      exact hcap
    · simp only [pushPackets, hst, List.length_cons]
      omega
    · simp only [pushPackets, hst]
      cases rest with
      | nil =>
        simp only [pushPackets, List.length_append, List.length_singleton]
        push_cast
        omega
      | cons e2 rest2 => exact hle (by simp)

/-- C9: on a publisher whose queue has capacity `N > 0`, after `N` `pushPacket` calls in
a row that all return 0, every further `pushPacket` returns -1 and leaves the publisher,
its queue included, as it was, and when it had made its copy the copy is released with
`av_packet_unref`; after one `waitAndPop` the next `pushPacket` returns 0 and appends a
copy of the caller's packet; and any `pushPacket` either appends a copy equal to the
caller's packet or changes nothing (the caller's packet is only read). -/
theorem pushPacket_queue_bound (p : Publisher) (N : Nat) (pushes : List (AVPacket × PushEnv))
    (hN : 0 < N) (hcap : p.mPktsQueue.capacity = (N : Int)) (hlen : pushes.length = N)
    (hok : ∀ s ∈ (pushPackets p pushes).1, s = 0) :
    (∀ pkt env,
      (pushPacket (pushPackets p pushes).2 pkt env).1 = -1 ∧
      (pushPacket (pushPackets p pushes).2 pkt env).2.1 = (pushPackets p pushes).2 ∧
      (env.new_packet = 0 → env.copy_packet = 0 →
        (pushPacket (pushPackets p pushes).2 pkt env).2.2
          = [Call.packet_alloc, Call.log .queue_full, Call.packet_unref pkt])) ∧
    (∃ front q2, (pushPackets p pushes).2.mPktsQueue.waitAndPop = some (front, q2) ∧
      ∀ pkt env, env.new_packet = 0 → env.copy_packet = 0 →
        pushPacket { (pushPackets p pushes).2 with mPktsQueue := q2 } pkt env
          = (0, { (pushPackets p pushes).2 with
                    mPktsQueue := { q2 with items := q2.items ++ [pkt] } },
              [Call.packet_alloc])) ∧
    (∀ (q : Publisher) pkt env,
      ((pushPacket q pkt env).1 = 0 ∧
        (pushPacket q pkt env).2.1
          = { q with mPktsQueue :=
                { q.mPktsQueue with items := q.mPktsQueue.items ++ [pkt] } }) ∨
      ((pushPacket q pkt env).1 = -1 ∧ (pushPacket q pkt env).2.1 = q)) := by
  obtain ⟨hc, hl, hle⟩ := pushPackets_all_success pushes p hok
  have hne : pushes ≠ [] := by
    intro h
    rw [h] at hlen
    simp at hlen
    omega
  have hle1 := hle hne
  refine ⟨?_, ?_, ?_⟩
  · intro pkt env
    exact pushPacket_full _ pkt env (by rw [hc, hcap, hl]; push_cast; omega)
  · cases hq : (pushPackets p pushes).2.mPktsQueue.items with
    | nil =>
      rw [hq] at hl
      simp at hl
      omega
    | cons front rest =>
      refine ⟨front, { (pushPackets p pushes).2.mPktsQueue with items := rest }, ?_, ?_⟩
      · simp [PacketQueue.waitAndPop, hq]
      · intro pkt env h1 h2
        rw [hq] at hle1
        simp only [List.length_cons] at hle1
        exact pushPacket_room _ pkt env (by simp only [hc]; push_cast at hle1; omega) h1 h2
  · intro q pkt env
    by_cases h : (q.mPktsQueue.items.length : Int) < q.mPktsQueue.capacity
    · by_cases h1 : env.new_packet = 0
      · by_cases h2 : env.copy_packet = 0
        · left
          rw [pushPacket_room q pkt env h h1 h2]
          exact ⟨rfl, rfl⟩
        · right
          simp [pushPacket, h1, h2]
      · right
        simp [pushPacket, h1]
    · right
      have := pushPacket_full q pkt env (by omega)
      exact ⟨this.1, this.2.1⟩

/-- Witness of C9: capacity 2, two pushes on a new publisher, then a third. -/
theorem pushPacket_queue_bound_witness :
    (pushPackets (Publisher.new 2 blankAudio)
        [(untimedPacket, goodPushEnv), (timedPacket, goodPushEnv)]).1 = [0, 0] ∧
      (pushPacket (pushPackets (Publisher.new 2 blankAudio)
        [(untimedPacket, goodPushEnv), (timedPacket, goodPushEnv)]).2 timedPacket
          goodPushEnv).1 = -1 :=
  ⟨by decide,
    ((pushPacket_queue_bound (Publisher.new 2 blankAudio) 2
      [(untimedPacket, goodPushEnv), (timedPacket, goodPushEnv)] (by decide) rfl rfl
      (by decide)).1 timedPacket goodPushEnv).1⟩

/-! ### Failure of `init` and teardown -/

/-- The `on_error:` block returns -1, keeps `isInitialized` and resets a non-`NULL`
output context. -/
theorem initOnError_result (p : Publisher) (calls : List Call) (r : Int × Publisher × List Call)
    (h : initOnError p calls = some r) :
    r.1 = -1 ∧ r.2.1.isInitialized = p.isInitialized ∧
      (p.mOutFmtCtx ≠ .null → r.2.1.mOutFmtCtx = .null) := by
  unfold initOnError at h
  cases hc : p.mOutFmtCtx <;> simp [hc, Ptr.nonNull, Ptr.read] at h <;> subst h <;> simp [hc]

/-- The audio set-up touches neither `isInitialized` nor the output context. -/
theorem initAudioOutputStream_frame (p : Publisher) (env : InitEnv)
    (r : Int × Publisher × List Call) (h : initAudioOutputStream p env = some r) :
    r.2.1.isInitialized = p.isInitialized ∧ r.2.1.mOutFmtCtx = p.mOutFmtCtx := by
  unfold initAudioOutputStream at h
  cases ha : env.audio_stream with
  | none =>
    simp [ha] at h
    subst h
    exact ⟨rfl, rfl⟩
  | some st =>
    cases hcd : env.audio_codec with
    | none => simp [ha, hcd] at h
    | some codec =>
      simp only [ha, hcd] at h
      split at h
      · simp at h
      · split at h <;> (simp at h; subst h; exact ⟨rfl, rfl⟩)

/-- Whenever `init` on an uninitialised publisher returns a non-zero status, the status
is -1, `isInitialized` is still false and the output context is `NULL`. -/
theorem init_failure_state (p : Publisher) (env : InitEnv) (r : Int × Publisher × List Call)
    (hp : p.isInitialized = false) (h : init p env = some r) (hs : r.1 ≠ 0) :
    r.1 = -1 ∧ r.2.1.isInitialized = false ∧ r.2.1.mOutFmtCtx = .null := by
  unfold init at h
  simp only [hp, Bool.false_eq_true, if_false] at h
  cases hc : env.out_ctx with
  | none =>
    simp [hc] at h
    subst h
    exact ⟨rfl, rfl, rfl⟩
  | some ctx =>
    simp only [hc] at h
    cases hv : env.video_stream with
    | none =>
      simp only [hv] at h
      obtain ⟨h1, h2, h3⟩ := initOnError_result _ _ r h
      exact ⟨h1, by rw [h2], h3 (by simp)⟩
    | some vst =>
      simp only [hv] at h
      split at h
      · simp at h
      · rename_i status p2 calls ha
        obtain ⟨ha1, ha2⟩ := initAudioOutputStream_frame _ _ _ ha
        simp only at ha1 ha2
        split at h
        · obtain ⟨h1, h2, h3⟩ := initOnError_result _ _ r h
          exact ⟨h1, by rw [h2, ha1], h3 (by rw [ha2]; simp)⟩
        · split at h
          · obtain ⟨h1, h2, h3⟩ := initOnError_result _ _ r h
            exact ⟨h1, by rw [h2, ha1], h3 (by rw [ha2]; simp)⟩
          · split at h
            · obtain ⟨h1, h2, h3⟩ := initOnError_result _ _ r h
              refine ⟨h1, ?_, h3 ?_⟩
              · rw [h2]
                split <;> simp [ha1, hp]
              · split <;> simp [ha2]
            · simp at h
              subst h
              simp at hs

/-- C6: when `avio_open` or `avformat_write_header` fails, `init` returns -1 with
`isInitialized` false and the output context freed and reset, but the audio encoder, both
audio frames and the resampler acquired earlier in the call are still live: the
`on_error` block never calls `closeStream`. When `swr_init` fails inside `openAudio`, the
failure path of `initAudioOutputStream` does release them. -/
theorem init_late_failure_keeps_audio_resources :
    (init (Publisher.new 4 blankAudio) openFailsEnv).map initFootprint
        = some (-1, false, .null, .live, .live, .live, .live) ∧
      (init (Publisher.new 4 blankAudio) headerFailsEnv).map initFootprint
        = some (-1, false, .null, .live, .live, .live, .live) ∧
      (init (Publisher.new 4 blankAudio) resamplerFailsEnv).map initFootprint
        = some (-1, false, .null, .null, .null, .null, .null) ∧
      (init (Publisher.new 4 blankAudio) openFailsEnv).map
          (fun r => r.2.2.filter (fun call => call = Call.lib .avcodec_free_context .live))
        = some [] := by
  refine ⟨rfl, rfl, rfl, ?_⟩
  decide

/-- The `on_error:` block of `init` reads `flags` and closes the output before it frees
the output context (lines 194-198), the order the destructor inverts. -/
theorem sinkRelease_of_failed_open :
    (init (Publisher.new 4 blankAudio) openFailsEnv).map
        (fun r => r.2.2.filter (fun call =>
          call = Call.lib .read_flags .live ∨ call = Call.lib .avio_close .null ∨
          call = Call.lib .avformat_free_context .live))
      = some [Call.lib .read_flags .live, Call.lib .avio_close .null,
          Call.lib .avformat_free_context .live] := by
  decide

/-- On every publisher that is not started and whose output context is live, the
destructor ends in a read of `flags` through the context it has just freed. -/
theorem destroy_live_context_undefined (p : Publisher) (ctx : AVFormatContext)
    (join_returns : Bool) (hctx : p.mOutFmtCtx = .live ctx) (hs : p.isStarted = false) :
    destroy p join_returns
      = .undefined ([Call.lib .av_write_trailer .live] ++ (closeStream p.mAudioOutStream).2
          ++ [Call.lib .avformat_free_context .live, Call.lib .read_flags .freed]) := by
  simp [destroy, hs, hctx, Ptr.nonNull, Ptr.state]

/-- C10: the destructor does not tear down as claimed. On an initialised, never started
publisher it writes the trailer, releases the audio encoder, frames and resampler, frees
the output context and then reads `flags` through the freed `mOutFmtCtx` (line 35), on
the way to closing the output that `init` acquired last; on a started one whose join
returns, the forced stop comes first and the run ends the same way. On a publisher that
was never initialised it passes `NULL` to `av_write_trailer` and aborts. `init` acquired
the context, then the encoder and resampler, then the output. -/
theorem destroy_reads_freed_context :
    destroy readyPublisher true
        = .undefined [Call.lib .av_write_trailer .live,
            Call.lib .avcodec_free_context .live, Call.lib .av_frame_free .live,
            Call.lib .av_frame_free .live, Call.lib .sws_freeContext .null,
            Call.lib .swr_free .live, Call.lib .avformat_free_context .live,
            Call.lib .read_flags .freed] ∧
      destroy (start readyPublisher).2.1 true
        = .undefined [Call.thread_join, Call.lib .av_write_trailer .live,
            Call.lib .avcodec_free_context .live, Call.lib .av_frame_free .live,
            Call.lib .av_frame_free .live, Call.lib .sws_freeContext .null,
            Call.lib .swr_free .live, Call.lib .avformat_free_context .live,
            Call.lib .read_flags .freed] ∧
      destroy (Publisher.new 4 blankAudio) true
        = .aborted [Call.lib .av_write_trailer .null] ∧
      (init (Publisher.new 4 blankAudio) goodInitEnv).map
          (fun r => r.2.2.filter (fun call =>
            call = Call.lib .avformat_alloc_output_context2 .live ∨
            call = Call.lib .avcodec_alloc_context3 .live ∨
            call = Call.lib .swr_alloc .live ∨ call = Call.lib .avio_open .live))
        = some [Call.lib .avformat_alloc_output_context2 .live,
            Call.lib .avcodec_alloc_context3 .live, Call.lib .swr_alloc .live,
            Call.lib .avio_open .live] := by
  refine ⟨?_, ?_, ?_, ?_⟩ <;> decide

end BubbleClient
